import Mathlib

/-!  Verification development for the diff engine and chunk model of
codemirror-merge-reforged (the bundled core in src/unnamed/part_004).

Strings are modelled as lists of UTF-16 code units (`JSStr`); positions
are `Int`, as JavaScript numbers (several of the library's index
computations can go below zero, and the model must follow them there).
An out-of-range `charCodeAt` read is `none`, modelling JavaScript's
`NaN`; every comparison involving `none` is `false`, exactly as every
comparison involving `NaN` is.

Loops of the source are translated either structurally or with an
explicit fuel argument whose value bounds the number of iterations the
JavaScript loop can perform on the given arguments (each such fuel is
justified in a comment); the top-level recursion of `findDiff`, whose
termination the library does not in fact guarantee, is translated with
a fuel parameter returning `none` on exhaustion.  The wall-clock
`Date.now() > timeout` checks are modelled by an oracle `Nat → Bool`
consulted with a running counter, so theorems quantify over every
possible timing behaviour. -/

namespace CMerge

/-- A JavaScript string, as its list of UTF-16 code units. -/
abbrev JSStr := List Nat

/-- A generous iteration budget for the scanning loops in this file:
every scan stops at its list's end well inside it (no document here
approaches 10⁹ units), so each loop computes exactly what the
corresponding unbounded JavaScript loop or primitive does.  Recursion on
a numeral keeps the kernel's evaluation of a long scan shallow, where
structural recursion on the list would not. -/
def scanFuel : Nat := 1000000000

/-- Indexed read, as a flat scan (agrees with `List.get?`).  Matching the
index keeps it a numeral during kernel evaluation, and the eight-element
case keeps the evaluation depth of long scans low. -/
def charCodeGo : Nat → Nat → JSStr → Option Nat
  | 0, _, _ => none
  | _ + 1, 0, rest => rest.head?
  | f + 1, i + 8, _ :: _ :: _ :: _ :: _ :: _ :: _ :: _ :: t => charCodeGo f i t
  | f + 1, i + 1, rest =>
    match rest with
    | [] => none
    | _ :: t => charCodeGo f i t

/-- JS `s.charCodeAt(i)`: `none` (NaN) for an out-of-range read. -/
def charCodeAt (s : JSStr) (i : Int) : Option Nat :=
  if 0 ≤ i then charCodeGo scanFuel i.toNat s else none

/-- Dropping a prefix, as a flat scan (agrees with `List.drop`; the
eight-element case keeps the evaluation depth of long scans low). -/
def dropGo : Nat → Nat → JSStr → JSStr
  | 0, _, rest => rest
  | _ + 1, 0, rest => rest
  | f + 1, i + 8, _ :: _ :: _ :: _ :: _ :: _ :: _ :: _ :: t => dropGo f i t
  | f + 1, i + 1, rest =>
    match rest with
    | [] => []
    | _ :: t => dropGo f i t

/-- JS `==` on two `charCodeAt` reads: false when either side is NaN. -/
def ueq (x y : Option Nat) : Bool :=
  match x, y with
  | some a, some b => a == b
  | _, _ => false

/-- Index clamping of JS `String.prototype.slice` (negative counts from the end). -/
def jsClamp (n : Nat) (v : Int) : Nat :=
  (if v < 0 then max ((n : Int) + v) 0 else min v (n : Int)).toNat

/-- The length of a string, as a flat scan (agrees with `List.length`;
the eight-element case keeps the evaluation depth of long scans low). -/
def jsLengthGo : Nat → Nat → JSStr → Nat
  | 0, acc, _ => acc
  | f + 1, acc, _ :: _ :: _ :: _ :: _ :: _ :: _ :: _ :: t => jsLengthGo f (acc + 8) t
  | f + 1, acc, rest =>
    match rest with
    | [] => acc
    | _ :: t => jsLengthGo f (acc + 1) t

/-- JS `s.length` (agrees with `List.length`). -/
def jsLength (s : JSStr) : Nat := jsLengthGo scanFuel 0 s

/-- JS `s.slice(i, j)`. -/
def jsSlice (s : JSStr) (i j : Int) : JSStr :=
  let a := jsClamp (jsLength s) i
  let b := jsClamp (jsLength s) j
  (dropGo scanFuel a s).take (b - a)

/-- Whether `xs` is a prefix of `ys`, as a flat scan (agrees with
`List.isPrefixOf`). -/
def prefixChk : Nat → JSStr → JSStr → Bool
  | 0, _, _ => true
  | f + 1, x0 :: x1 :: x2 :: x3 :: x4 :: x5 :: x6 :: x7 :: xt,
      y0 :: y1 :: y2 :: y3 :: y4 :: y5 :: y6 :: y7 :: yt =>
    x0 == y0 && x1 == y1 && x2 == y2 && x3 == y3 && x4 == y4 && x5 == y5 &&
      x6 == y6 && x7 == y7 && prefixChk f xt yt
  | f + 1, xs, ys =>
    match xs, ys with
    | [], _ => true
    | _ :: _, [] => false
    | x :: xt, y :: yt => x == y && prefixChk f xt yt

/-- String equality, as a flat scan (agrees with `List.beq`, i.e. JS
`==` on strings). -/
def strEqAux : Nat → JSStr → JSStr → Bool
  | 0, _, _ => true
  | f + 1, x0 :: x1 :: x2 :: x3 :: x4 :: x5 :: x6 :: x7 :: xt,
      y0 :: y1 :: y2 :: y3 :: y4 :: y5 :: y6 :: y7 :: yt =>
    x0 == y0 && x1 == y1 && x2 == y2 && x3 == y3 && x4 == y4 && x5 == y5 &&
      x6 == y6 && x7 == y7 && strEqAux f xt yt
  | f + 1, xs, ys =>
    match xs, ys with
    | [], [] => true
    | [], _ :: _ => false
    | _ :: _, [] => false
    | x :: xt, y :: yt => x == y && strEqAux f xt yt

/-- JS `x == y` on strings. -/
def strEq (x y : JSStr) : Bool := strEqAux scanFuel x y

/-- Scan helper for `indexOfFrom`: the first position `≥ p` at which a
nonempty `needle` occurs, where `rest` is the haystack with its first `p`
units dropped; scanning to the very end of the haystack agrees with JS
`indexOf`, which likewise finds nothing past it. -/
def indexOfAux (needle : JSStr) : Nat → Nat → JSStr → Int
  | 0, _, _ => -1
  | f + 1, p, rest =>
    if prefixChk scanFuel needle rest then (p : Int)
    else
      match rest with
      | [] => -1
      | _ :: t => indexOfAux needle f (p + 1) t

/-- JS `hay.indexOf(needle, fromIndex)`: an empty needle is found at the
clamped start index; a negative `fromIndex` clamps to 0 (`Int.toNat`), a
start past the end finds nothing, both as in JS. -/
def indexOfFrom (hay needle : JSStr) (fromIndex : Int) : Int :=
  if needle = [] then (jsClamp (jsLength hay) fromIndex : Int)
  else indexOfAux needle scanFuel fromIndex.toNat (dropGo scanFuel fromIndex.toNat hay)

/-- JS `hay.indexOf(needle)`. -/
def indexOf (hay needle : JSStr) : Int := indexOfFrom hay needle 0

/-- Source `isSurrogate1` (high surrogate code unit). -/
def isSurrogate1 (c : Nat) : Bool := 0xD800 ≤ c && c ≤ 0xDBFF

/-- Source `isSurrogate2` (low surrogate code unit). -/
def isSurrogate2 (c : Nat) : Bool := 0xDC00 ≤ c && c ≤ 0xDFFF

/-- High-surrogate test on a possibly-NaN read (false on NaN, as in JS). -/
def surr1 (c : Option Nat) : Bool :=
  match c with
  | some v => isSurrogate1 v
  | none => false

/-- Low-surrogate test on a possibly-NaN read. -/
def surr2 (c : Option Nat) : Bool :=
  match c with
  | some v => isSurrogate2 v
  | none => false

/-- Source `validIndex`: false when `index` looks like it is in the middle
of a surrogate pair. -/
def validIndex (s : JSStr) (index : Int) : Bool :=
  index == 0 || index == (jsLength s : Int) ||
    !(surr1 (charCodeAt s (index - 1))) || !(surr2 (charCodeAt s index))

/-- Source `Change`: a changed range, half-open in both documents. -/
structure Change where
  fromA : Int
  toA : Int
  fromB : Int
  toB : Int
deriving Repr, DecidableEq

/-- Source `Change.offset`. -/
def Change.offset (c : Change) (offA : Int) (offB : Int := offA) : Change :=
  ⟨c.fromA + offA, c.toA + offA, c.fromB + offB, c.toB + offB⟩

/-- Source `chunkSize` loop `while (size < max) size <<= 1`.  The fuel
`mx.toNat` bounds the doubling count (`⌈log₂ mx⌉ ≤ mx` for `mx ≥ 1`;
for `mx ≤ 1` the loop body never runs). -/
def chunkSizeAux (mx : Int) : Nat → Int → Int
  | 0, size => size
  | f + 1, size => if size < mx then chunkSizeAux mx f (size * 2) else size

/-- Source `chunkSize`. -/
def chunkSize (lenA lenB : Int) : Int :=
  let mx := min lenA lenB
  chunkSizeAux mx mx.toNat 1

/-- The loop of source `commonPrefix`.  Every iteration either advances
`pA` by `chunk ≥ 1` toward `toA` or halves `chunk` (which starts at
`chunkSize ≤ 2·min(len)`), so the fuel bounds the iteration count of the
JavaScript loop; fuel exhaustion (unreachable) answers 0. -/
def commonPrefixAux (a : JSStr) (fromA toA : Int) (b : JSStr) (toB : Int) :
    Nat → Int → Int → Int → Int
  | 0, _, _, _ => 0
  | f + 1, chunk, pA, pB =>
    let endA := pA + chunk
    let endB := pB + chunk
    if endA > toA || endB > toB || !(strEq (jsSlice a pA endA) (jsSlice b pB endB)) then
      if chunk == 1 then pA - fromA - (if validIndex a pA then 0 else 1)
      else commonPrefixAux a fromA toA b toB f (chunk / 2) pA pB
    else if endA == toA || endB == toB then endA - fromA
    else commonPrefixAux a fromA toA b toB f chunk endA endB

/-- Source `commonPrefix` (note: the entry guard compares `fromA == toB`,
exactly as the source does). -/
def commonPrefix (a : JSStr) (fromA toA : Int) (b : JSStr) (fromB toB : Int) : Int :=
  if fromA == toA || fromA == toB ||
      !(ueq (charCodeAt a fromA) (charCodeAt b fromB)) then 0
  else
    commonPrefixAux a fromA toA b toB
      ((toA - fromA).toNat + (toB - fromB).toNat + 70)
      (chunkSize (toA - fromA) (toB - fromB)) fromA fromB

/-- The loop of source `commonSuffix`; fuel as in `commonPrefixAux`. -/
def commonSuffixAux (a : JSStr) (fromA toA : Int) (b : JSStr) (fromB : Int) :
    Nat → Int → Int → Int → Int
  | 0, _, _, _ => 0
  | f + 1, chunk, pA, pB =>
    let sA := pA - chunk
    let sB := pB - chunk
    if sA < fromA || sB < fromB || !(strEq (jsSlice a sA pA) (jsSlice b sB pB)) then
      if chunk == 1 then toA - pA - (if validIndex a pA then 0 else 1)
      else commonSuffixAux a fromA toA b fromB f (chunk / 2) pA pB
    else if sA == fromA || sB == fromB then toA - sA
    else commonSuffixAux a fromA toA b fromB f chunk sA sB

/-- Source `commonSuffix`. -/
def commonSuffix (a : JSStr) (fromA toA : Int) (b : JSStr) (fromB toB : Int) : Int :=
  if fromA == toA || fromB == toB ||
      !(ueq (charCodeAt a (toA - 1)) (charCodeAt b (toB - 1))) then 0
  else
    commonSuffixAux a fromA toA b fromB
      ((toA - fromA).toNat + (toB - fromB).toNat + 70)
      (chunkSize (toA - fromA) (toB - fromB)) toA toB

/-- The seed-occurrence loop of source `findMatch`
(`while ((found = rangeB.indexOf(seed, found + 1)) != -1)`); `found`
strictly increases, so the range's length bounds the iterations, well
inside `scanFuel`. -/
def findMatchFound (a : JSStr) (fromA toA : Int) (b : JSStr) (fromB toB : Int)
    (rangeB seed : JSStr) (start endI : Int) :
    Nat → Int → Option (Int × Int × Int) → Option (Int × Int × Int)
  | 0, _, best => best
  | f + 1, found, best =>
    let found2 := indexOfFrom rangeB seed (found + 1)
    if found2 == -1 then best
    else
      let prefixAfter := commonPrefix a endI toA b (fromB + found2 + seed.length) toB
      let suffixBefore := commonSuffix a fromA start b fromB (fromB + found2)
      let length := (seed.length : Int) + prefixAfter + suffixBefore
      let best2 :=
        match best with
        | none => some (start - suffixBefore, fromB + found2 - suffixBefore, length)
        | some old =>
          if old.2.2 < length then
            some (start - suffixBefore, fromB + found2 - suffixBefore, length)
          else best
      findMatchFound a fromA toA b fromB toB rangeB seed start endI f found2 best2

/-- The seed-scanning loop of source `findMatch` (`for (let start = fromA +
size;;)`); each pass moves `start` to `end ≥ start + 1`, so
`(toA - fromA).toNat + 2` bounds the iterations. -/
def findMatchInner (a : JSStr) (fromA toA : Int) (b : JSStr) (fromB toB : Int)
    (rangeB : JSStr) (size : Int) :
    Nat → Int → Option (Int × Int × Int) → Option (Int × Int × Int)
  | 0, _, best => best
  | f + 1, start0, best =>
    let start := if validIndex a start0 then start0 else start0 + 1
    let end0 := start + size
    let endI := if validIndex a end0 then end0
      else if end0 == start + 1 then end0 + 1 else end0 - 1
    if endI ≥ toA then best
    else
      let seed := jsSlice a start endI
      let best1 := findMatchFound a fromA toA b fromB toB rangeB seed start endI
        scanFuel (-1) best
      findMatchInner a fromA toA b fromB toB rangeB size f endI best1

/-- The shrinking-size loop of source `findMatch`; the size at least
halves each round, so `size.toNat + 2` bounds the rounds. -/
def findMatchOuter (a : JSStr) (fromA toA : Int) (b : JSStr) (fromB toB : Int)
    (rangeB : JSStr) (divideTo : Int) :
    Nat → Int → Option (Int × Int × Int)
  | 0, _ => none
  | f + 1, size =>
    if size < divideTo then none
    else
      let best := findMatchInner a fromA toA b fromB toB rangeB size
        ((toA - fromA).toNat + 2) (fromA + size) none
      if divideTo < 0 then best
      else
        match best with
        | some x => some x
        | none => findMatchOuter a fromA toA b fromB toB rangeB divideTo f (size / 2)

/-- Source `findMatch` (`a` assumed to be the longer side). -/
def findMatch (a : JSStr) (fromA toA : Int) (b : JSStr) (fromB toB : Int)
    (size divideTo : Int) : Option (Int × Int × Int) :=
  let rangeB := jsSlice b fromB toB
  findMatchOuter a fromA toA b fromB toB rangeB divideTo (size.toNat + 2) size

/-- Source `halfMatch` after its one possible argument swap (here `a` is
at least as long as `b`); `Math.floor` division is `Int.fdiv`. -/
def halfMatchCore (a : JSStr) (fromA toA : Int) (b : JSStr) (fromB toB : Int) :
    Option (Int × Int × Int) :=
  if toA - fromA < 4 || (toB - fromB) * 2 < toA - fromA then none
  else findMatch a fromA toA b fromB toB ((toA - fromA).fdiv 4) (-1)

/-- Source `halfMatch`. -/
def halfMatch (a : JSStr) (fromA toA : Int) (b : JSStr) (fromB toB : Int) :
    Option (Int × Int × Int) :=
  if toA - fromA < toB - fromB then
    (halfMatchCore b fromB toB a fromA toA).map fun r => (r.2.1, r.1, r.2.2)
  else halfMatchCore a fromA toA b fromB toB

/-- Engine configuration, as `diff` receives it. -/
structure DiffConfig where
  scanLimit : Option Nat := none
  timeout : Option Nat := none

/-- The module-level engine context that `diff` sets up: the halved scan
limit, whether a wall-clock deadline is active, and the oracle answering
each successive `Date.now() > timeout` poll. -/
structure DiffCtx where
  scanLimit : Int
  timeoutActive : Bool
  expired : Nat → Bool

/-- Source `diff`'s entry assignments
`scanLimit = (config?.scanLimit ?? 1e9) >> 1` and
`timeout = config?.timeout ? Date.now() + config.timeout : 0`
(a deadline is active exactly when a nonzero timeout is configured). -/
def DiffCtx.ofConfig (cfg : DiffConfig) (expired : Nat → Bool) : DiffCtx :=
  { scanLimit := (Int.ofNat (cfg.scanLimit.getD 1000000000)) / 2
    timeoutActive := cfg.timeout.getD 0 != 0
    expired := expired }

/-- The module state mutated during one `diff` call: the poll counter for
the time oracle, and the `crude` flag. -/
structure DiffState where
  tick : Nat
  crude : Bool
deriving Repr, DecidableEq

/-- One `Date.now() > timeout` poll; only an active deadline reads the
clock (JS `&&` short-circuit), advancing the poll counter. -/
def timePoll (ctx : DiffCtx) (st : DiffState) : Bool × DiffState :=
  if ctx.timeoutActive then (ctx.expired st.tick, { st with tick := st.tick + 1 })
  else (false, st)

/-- Source `Frontier`: the scratch vector becomes a total function
`Int → Option Int`, `none` standing for an index JavaScript never
initialised (all indices the algorithm reads are initialised by `reset`);
the reserved word `end` becomes `endv`. -/
structure Frontier where
  vec : Int → Option Int
  len : Int
  start : Int
  endv : Int

/-- Source `Frontier.reset` (`-1` everywhere below `off << 1`, then `0` at
`off + 1`). -/
def Frontier.reset (off : Int) : Frontier :=
  { vec := fun i => if i == off + 1 then some 0
      else if 0 ≤ i && i < off * 2 then some (-1) else none
    len := off * 2
    start := 0
    endv := 0 }

/-- JS `<` on two possibly-undefined numbers: false unless both defined. -/
def olt (x y : Option Int) : Bool :=
  match x, y with
  | some a, some b => decide (a < b)
  | _, _ => false

/-- JS `>` against a number: false on undefined/NaN. -/
def ogt (x : Option Int) (v : Int) : Bool :=
  match x with
  | some a => decide (a > v)
  | none => false

/-- JS `!=` against a number: true on undefined (`undefined != -1`). -/
def obne (x : Option Int) (v : Int) : Bool :=
  match x with
  | some a => a != v
  | none => true

/-- Iteration bound for the snake-extension loop, which only runs while
`x < lenX`. -/
def slideFuel (lenX : Int) (x : Option Int) : Nat :=
  match x with
  | some v => (lenX - v).toNat
  | none => 0

/-- The snake-extension loop `while (x < lenX && y < lenY && match(x, y))
{ x++; y++; }` of `Frontier.advance`. -/
def slide (lenX lenY : Int) (mtch : Int → Int → Bool) :
    Nat → Option Int → Option Int → Option Int × Option Int
  | 0, x, y => (x, y)
  | f + 1, x, y =>
    match x, y with
    | some xv, some yv =>
      if decide (xv < lenX) && decide (yv < lenY) && mtch xv yv then
        match xv + 1, yv + 1 with
        | Int.ofNat (m + 1), Int.ofNat (n + 1) =>
          slide lenX lenY mtch f (some (Int.ofNat (m + 1))) (some (Int.ofNat (n + 1)))
        | x2, y2 => slide lenX lenY mtch f (some x2) (some y2)
      else (x, y)
    | _, _ => (x, y)

/-- The k-loop of source `Frontier.advance`: `k` steps by two from
`-depth + start` while `k ≤ depth - end`, re-reading the updated `end`
each round, so `depth.toNat + 2` bounds the iterations.  Returns the
updated frontier and the meet point, if any. -/
def advanceLoop (depth lenX lenY vOff : Int) (other : Option Frontier)
    (fromBack : Bool) (mtch : Int → Int → Bool) :
    Nat → Int → Frontier → Frontier × Option (Int × Int)
  | 0, _, fr => (fr, none)
  | f + 1, k, fr =>
    if decide (k ≤ depth - fr.endv) then
      let off := vOff + k
      let x0 : Option Int :=
        if k == -depth || (k != depth && olt (fr.vec (off - 1)) (fr.vec (off + 1))) then
          fr.vec (off + 1)
        else (fr.vec (off - 1)).map (· + 1)
      let y0 : Option Int := x0.map (· - k)
      let xy := slide lenX lenY mtch (slideFuel lenX x0) x0 y0
      let x := xy.1
      let y := xy.2
      let fr1 : Frontier := { fr with vec := fun i => if i == off then x else fr.vec i }
      if ogt x lenX then
        advanceLoop depth lenX lenY vOff other fromBack mtch f (k + 2)
          { fr1 with endv := fr1.endv + 2 }
      else if ogt y lenY then
        advanceLoop depth lenX lenY vOff other fromBack mtch f (k + 2)
          { fr1 with start := fr1.start + 2 }
      else
        let step := advanceLoop depth lenX lenY vOff other fromBack mtch f (k + 2) fr1
        match other with
        | some oth =>
          let offOther := vOff + (lenX - lenY) - k
          if decide (0 ≤ offOther) && decide (offOther < fr1.len) &&
              obne (oth.vec offOther) (-1) then
            if !fromBack then
              match x, y, oth.vec offOther with
              | some xv, some yv, some ov =>
                if decide (xv ≥ lenX - ov) then (fr1, some (xv, yv)) else step
              | _, _, _ => step
            else
              match x, oth.vec offOther with
              | some xv, some ov =>
                if decide (ov ≥ lenX - xv) then (fr1, some (ov, vOff + ov - offOther))
                else step
              | _, _ => step
          else step
        | none => step
    else (fr, none)

/-- Source `Frontier.advance`. -/
def Frontier.advance (fr : Frontier) (depth lenX lenY vOff : Int)
    (other : Option Frontier) (fromBack : Bool) (mtch : Int → Int → Bool) :
    Frontier × Option (Int × Int) :=
  advanceLoop depth lenX lenY vOff other fromBack mtch (depth.toNat + 2)
    (-depth + fr.start) fr

/-- The type of the recursive entry `findDiff` as its callees see it
(recursion is tied off by fuel in `findDiffF`). -/
abbrev RecFn := JSStr → Int → Int → JSStr → Int → Int → DiffState →
  Option (List Change × DiffState)

/-- Source `bisect`: move split points off surrogate-pair middles, then
recurse on both sides. -/
def bisectGen (rec : RecFn) (a : JSStr) (fromA toA splitA0 : Int)
    (b : JSStr) (fromB toB splitB0 : Int) (st : DiffState) :
    Option (List Change × DiffState) :=
  let v1 := validIndex a splitA0
  let splitA := if v1 then splitA0 else splitA0 + 1
  let stop1 := !v1 && splitA == toA
  let v2 := validIndex b splitB0
  let splitB := if v2 then splitB0 else splitB0 + 1
  let stop2 := !v2 && splitB == toB
  if stop1 || stop2 then some ([⟨fromA, toA, fromB, toB⟩], st)
  else
    (rec a fromA splitA b fromB splitB st).bind fun p1 =>
      (rec a splitA toA b splitB toB p1.2).map fun p2 => (p1.1 ++ p2.1, p2.2)

/-- Source `crudeMatch` (sets the module `crude` flag; `Math.floor`
division is `Int.fdiv`). -/
def crudeMatchGen (rec : RecFn) (a : JSStr) (fromA toA : Int)
    (b : JSStr) (fromB toB : Int) (st0 : DiffState) :
    Option (List Change × DiffState) :=
  let st : DiffState := { st0 with crude := true }
  let lenA := toA - fromA
  let lenB := toB - fromB
  let result :=
    if lenA < lenB then
      (findMatch b fromB toB a fromA toA (lenA.fdiv 6) 50).map fun r =>
        (r.2.1, r.1, r.2.2)
    else findMatch a fromA toA b fromB toB (lenB.fdiv 6) 50
  match result with
  | none => some ([⟨fromA, toA, fromB, toB⟩], st)
  | some (sharedA, sharedB, sharedLen) =>
    (rec a fromA sharedA b fromB sharedB st).bind fun p1 =>
      (rec a (sharedA + sharedLen) toA b (sharedB + sharedLen) toB p1.2).map fun p2 =>
        (p1.1 ++ p2.1, p2.2)

/-- The Myers depth loop of source `findSnake`: fuel `off.toNat` is the
loop bound `depth < off`; exhausting it is the source's "no commonality
at all" return. -/
def findSnakeLoop (ctx : DiffCtx) (rec : RecFn) (a : JSStr) (fromA toA : Int)
    (b : JSStr) (fromB toB : Int) (lenA lenB off : Int) (odd : Bool) :
    Nat → Int → Frontier → Frontier → DiffState → Option (List Change × DiffState)
  | 0, _, _, _, st => some ([⟨fromA, toA, fromB, toB⟩], st)
  | f + 1, depth, f1, f2, st =>
    if decide (depth > ctx.scanLimit) then crudeMatchGen rec a fromA toA b fromB toB st
    else
      let poll :=
        if ctx.timeoutActive && depth % 64 == 0 then timePoll ctx st
        else (false, st)
      if poll.1 then crudeMatchGen rec a fromA toA b fromB toB poll.2
      else
        let st1 := poll.2
        let m1 : Int → Int → Bool := fun x y =>
          ueq (charCodeAt a (fromA + x)) (charCodeAt b (fromB + y))
        let m2 : Int → Int → Bool := fun x y =>
          ueq (charCodeAt a (toA - x - 1)) (charCodeAt b (toB - y - 1))
        let r1 := f1.advance depth lenA lenB off (if odd then some f2 else none) false m1
        match r1.2 with
        | some done =>
          bisectGen rec a fromA toA (fromA + done.1) b fromB toB (fromB + done.2) st1
        | none =>
          let f1n := r1.1
          let r2 := f2.advance depth lenA lenB off (if odd then none else some f1n) true m2
          match r2.2 with
          | some done =>
            bisectGen rec a fromA toA (fromA + done.1) b fromB toB (fromB + done.2) st1
          | none =>
            findSnakeLoop ctx rec a fromA toA b fromB toB lenA lenB off odd
              f (depth + 1) f1n r2.1 st1

/-- Source `findSnake`: budget checks, then the bidirectional Myers scan.
`Math.ceil((lenA + lenB) / 2)` is the integer ceiling; the parity test
`(lenA - lenB) % 2 != 0` keeps its JS truth value under `Int.emod`. -/
def findSnakeGen (ctx : DiffCtx) (rec : RecFn) (a : JSStr) (fromA toA : Int)
    (b : JSStr) (fromB toB : Int) (st : DiffState) :
    Option (List Change × DiffState) :=
  let lenA := toA - fromA
  let lenB := toB - fromB
  if decide (ctx.scanLimit < 1000000000) && decide (min lenA lenB > ctx.scanLimit * 16) then
    if decide (min lenA lenB > ctx.scanLimit * 64) then
      some ([⟨fromA, toA, fromB, toB⟩], st)
    else crudeMatchGen rec a fromA toA b fromB toB st
  else
    let poll := timePoll ctx st
    if poll.1 then
      if decide (min lenA lenB > ctx.scanLimit * 64) then
        some ([⟨fromA, toA, fromB, toB⟩], poll.2)
      else crudeMatchGen rec a fromA toA b fromB toB poll.2
    else
      let st1 := poll.2
      let off := (lenA + lenB + 1).fdiv 2
      let f1 := Frontier.reset off
      let f2 := Frontier.reset off
      let odd := (lenA - lenB) % 2 != 0
      findSnakeLoop ctx rec a fromA toA b fromB toB lenA lenB off odd
        off.toNat 0 f1 f2 st1

/-- Source `findDiff` body, the recursive entry abstracted as `rec`.  Note
the whole-string identity test `a == b` at the very top, and that the two
`indexOf` early returns are gathered into one optional result. -/
def findDiffGen (ctx : DiffCtx) (rec : RecFn) : RecFn := fun a fromA0 toA0 b fromB0 toB0 st =>
  if strEq a b then some ([], st)
  else
    let pre := commonPrefix a fromA0 toA0 b fromB0 toB0
    let suf := commonSuffix a (fromA0 + pre) toA0 b (fromB0 + pre) toB0
    let fromA := fromA0 + pre
    let toA := toA0 - suf
    let fromB := fromB0 + pre
    let toB := toB0 - suf
    let lenA := toA - fromA
    let lenB := toB - fromB
    if lenA == 0 || lenB == 0 then some ([⟨fromA, toA, fromB, toB⟩], st)
    else
      let two : Option (List Change) :=
        if decide (lenA > lenB) then
          let found := indexOf (jsSlice a fromA toA) (jsSlice b fromB toB)
          if decide (found > -1) then
            some [⟨fromA, fromA + found, fromB, fromB⟩,
                  ⟨fromA + found + lenB, toA, toB, toB⟩]
          else none
        else if decide (lenB > lenA) then
          let found := indexOf (jsSlice b fromB toB) (jsSlice a fromA toA)
          if decide (found > -1) then
            some [⟨fromA, fromA, fromB, fromB + found⟩,
                  ⟨toA, toA, fromB + found + lenA, toB⟩]
          else none
        else none
      match two with
      | some cs => some (cs, st)
      | none =>
        if lenA == 1 || lenB == 1 then some ([⟨fromA, toA, fromB, toB⟩], st)
        else
          match halfMatch a fromA toA b fromB toB with
          | some (sharedA, sharedB, sharedLen) =>
            (rec a fromA sharedA b fromB sharedB st).bind fun p1 =>
              (rec a (sharedA + sharedLen) toA b (sharedB + sharedLen) toB p1.2).map
                fun p2 => (p1.1 ++ p2.1, p2.2)
          | none => findSnakeGen ctx rec a fromA toA b fromB toB st

/-- The fuelled recursive `findDiff`: fuel 0 is `none`.  The source's
recursion has no termination guarantee (theorem for C3 exhibits an input
where it recurs forever), so the embedding makes exhaustion observable. -/
def findDiffF (ctx : DiffCtx) : Nat → RecFn
  | 0 => fun _ _ _ _ _ _ _ => none
  | fuel + 1 => findDiffGen ctx (findDiffF ctx fuel)

/-- The splice loop of source `mergeAdjacent`; each round either merges
the pair (shrinking the list) or moves right, so the fuel `l.length`
covers it, and structural recursion keeps it kernel-reducible.  The
comparisons keep the source's form over `Int`, where `cur.fromA - minGap`
may well be negative. -/
def mergeAdjacentGo (minGap : Int) : Nat → List Change → List Change
  | 0, l => l
  | f + 1, c1 :: c2 :: rest =>
    if decide (c1.toA > c2.fromA - minGap) && decide (c1.toB > c2.fromB - minGap) then
      mergeAdjacentGo minGap f (⟨c1.fromA, c2.toA, c1.fromB, c2.toB⟩ :: rest)
    else c1 :: mergeAdjacentGo minGap f (c2 :: rest)
  | _ + 1, l => l

/-- Source `mergeAdjacent`. -/
def mergeAdjacent (minGap : Int) (l : List Change) : List Change :=
  mergeAdjacentGo minGap l.length l

/-- One pass of the move loop of source `normalize`, left to right.
`prevToA` is the previous (already updated) change's `toA`, 0 before the
first, as in the source's `i ? changes[i - 1].toA : 0`; the next change's
`fromA` is read from the unprocessed tail, as the source reads
`changes[i + 1].fromA` before updating it.  Returns the updated list and
whether anything moved. -/
def normalizePass (a b : JSStr) : Int → List Change → List Change × Bool
  | _, [] => ([], false)
  | prevToA, ch0 :: rest =>
    let pre := commonPrefix a ch0.fromA ch0.toA b ch0.fromB ch0.toB
    let ch1 := if pre != 0 then
        (⟨ch0.fromA + pre, ch0.toA, ch0.fromB + pre, ch0.toB⟩ : Change)
      else ch0
    let post := commonSuffix a ch1.fromA ch1.toA b ch1.fromB ch1.toB
    let ch2 := if post != 0 then
        (⟨ch1.fromA, ch1.toA - post, ch1.fromB, ch1.toB - post⟩ : Change)
      else ch1
    let lenA := ch2.toA - ch2.fromA
    let lenB := ch2.toB - ch2.fromB
    let keep : List Change × Bool :=
      let r := normalizePass a b ch2.toA rest
      (ch2 :: r.1, r.2)
    if lenA != 0 && lenB != 0 then keep
    else
      let beforeLen := ch2.fromA - prevToA
      let afterLen :=
        (match rest with
         | next :: _ => next.fromA
         | [] => (jsLength a : Int)) - ch2.toA
      if beforeLen == 0 || afterLen == 0 then keep
      else
        let text := if lenA != 0 then jsSlice a ch2.fromA ch2.toA
          else jsSlice b ch2.fromB ch2.toB
        if decide (beforeLen ≤ (jsLength text : Int)) &&
            strEq (jsSlice a (ch2.fromA - beforeLen) ch2.fromA)
              (jsSlice text ((jsLength text : Int) - beforeLen) (jsLength text : Int)) then
          let ch3 : Change := ⟨ch2.fromA - beforeLen, ch2.toA - beforeLen,
            ch2.fromB - beforeLen, ch2.toB - beforeLen⟩
          let r := normalizePass a b ch3.toA rest
          (ch3 :: r.1, true)
        else if decide (afterLen ≤ (jsLength text : Int)) &&
            strEq (jsSlice a ch2.toA (ch2.toA + afterLen)) (jsSlice text 0 afterLen) then
          let ch3 : Change := ⟨ch2.fromA + afterLen, ch2.toA + afterLen,
            ch2.fromB + afterLen, ch2.toB + afterLen⟩
          let r := normalizePass a b ch3.toA rest
          (ch3 :: r.1, true)
        else keep

/-- Source `normalize`: repeat `mergeAdjacent(changes, 1)` and a move pass
until no move happened.  The JS loop runs to a fixpoint; the fuel bounds
the repetitions (every concrete run below reaches the fixpoint well inside
it, and the universal theorems do not depend on it). -/
def normalizeF (a b : JSStr) : Nat → List Change → List Change
  | 0, changes => changes
  | f + 1, changes =>
    let merged := mergeAdjacent 1 changes
    let r := normalizePass a b 0 merged
    if r.2 then normalizeF a b f r.1 else r.1

/-- Source `diff`, returning the change list and the final module state.
The recursion fuel `a.length + b.length + 1` covers every terminating run
evaluated below; `none` means the source recursion did not terminate
within it. -/
def diffRun (ctx : DiffCtx) (a b : JSStr) : Option (List Change × DiffState) :=
  (findDiffF ctx (jsLength a + jsLength b + 1) a 0 (jsLength a : Int)
      b 0 (jsLength b : Int) { tick := 0, crude := false }).map
    fun p => (normalizeF a b (jsLength a + jsLength b + 1) p.1, p.2)

/-- Source `diff` (the change list alone), for a configuration and a
timing oracle. -/
def diff (cfg : DiffConfig) (expired : Nat → Bool) (a b : JSStr) :
    Option (List Change) :=
  (diffRun (DiffCtx.ofConfig cfg expired) a b).map Prod.fst

/-- Source `asciiWordChar`. -/
def asciiWordChar (code : Nat) : Bool :=
  (48 < code && code < 58) || (64 < code && code < 91) || (96 < code && code < 123)

/-- The source's Unicode word-character regex
(`/[\p{Alphabetic}\p{Number}]/u`) consults the host's Unicode tables, so
the development abstracts `wordChar.test` as an oracle over the tested
one- or two-unit string; every code unit the source passes it is at least
192, and all concrete inputs evaluated below stay under 192, where the
source decides by `asciiWordChar` and never consults the regex. -/
abbrev WordOracle := List Nat → Bool

/-- Source `wordCharAfter`.  An out-of-range read gives `NaN`, which
falls through both surrogate tests to `wordChar.test(String.fromCharCode(NaN))`,
a test of `"\u0000"` — the `none` branch mirrors that (unreachable from
the call sites). -/
def wordCharAfter (w : WordOracle) (s : JSStr) (pos : Int) : Int :=
  if pos == (jsLength s : Int) then 0
  else
    match charCodeAt s pos with
    | some next =>
      if next < 192 then (if asciiWordChar next then 1 else 0)
      else if !(isSurrogate1 next) || pos == (jsLength s : Int) - 1 then
        (if w [next] then 1 else 0)
      else (if w (jsSlice s pos (pos + 2)) then 2 else 0)
    | none => if w [0] then 1 else 0

/-- Source `wordCharBefore`. -/
def wordCharBefore (w : WordOracle) (s : JSStr) (pos : Int) : Int :=
  if pos == 0 then 0
  else
    match charCodeAt s (pos - 1) with
    | some prev =>
      if prev < 192 then (if asciiWordChar prev then 1 else 0)
      else if !(isSurrogate2 prev) || pos == 1 then
        (if w [prev] then 1 else 0)
      else (if w (jsSlice s (pos - 2) pos) then 2 else 0)
    | none => if w [0] then 1 else 0

/-- The 8-round scan of source `findWordBoundaryAfter` (`MAX_SCAN = 8`);
exhausting the rounds returns the original `pos`, as the source's final
`return pos` does. -/
def findWordBoundaryAfterGo (w : WordOracle) (s : JSStr) (pos endP : Int) :
    Nat → Int → Int
  | 0, _ => pos
  | i + 1, cur =>
    let size := wordCharAfter w s cur
    if size == 0 || decide (cur + size > endP) then cur
    else findWordBoundaryAfterGo w s pos endP i (cur + size)

/-- Source `findWordBoundaryAfter`. -/
def findWordBoundaryAfter (w : WordOracle) (s : JSStr) (pos mx : Int) : Int :=
  if pos == (jsLength s : Int) || wordCharBefore w s pos == 0 then pos
  else findWordBoundaryAfterGo w s pos (pos + mx) 8 pos

/-- The 8-round scan of source `findWordBoundaryBefore`. -/
def findWordBoundaryBeforeGo (w : WordOracle) (s : JSStr) (pos endP : Int) :
    Nat → Int → Int
  | 0, _ => pos
  | i + 1, cur =>
    let size := wordCharBefore w s cur
    if size == 0 || decide (cur - size < endP) then cur
    else findWordBoundaryBeforeGo w s pos endP i (cur - size)

/-- Source `findWordBoundaryBefore`. -/
def findWordBoundaryBefore (w : WordOracle) (s : JSStr) (pos mx : Int) : Int :=
  if pos == 0 || wordCharAfter w s pos == 0 then pos
  else findWordBoundaryBeforeGo w s pos (pos - mx) 8 pos

/-- The scan of source `findLineBreakBefore` (`for (; pos != stop; pos--)`),
always called with `stop ≤ pos`, so `(pos - stop).toNat` is its exact
iteration count bound; -1 means no line break. -/
def findLineBreakBeforeGo (s : JSStr) : Nat → Int → Int
  | 0, _ => -1
  | f + 1, pos =>
    if ueq (charCodeAt s (pos - 1)) (some 10) then pos
    else findLineBreakBeforeGo s f (pos - 1)

/-- Source `findLineBreakBefore`. -/
def findLineBreakBefore (s : JSStr) (pos stop : Int) : Int :=
  findLineBreakBeforeGo s (pos - stop).toNat pos

/-- The scan of source `findLineBreakAfter`, always called with
`pos ≤ stop`. -/
def findLineBreakAfterGo (s : JSStr) : Nat → Int → Int
  | 0, _ => -1
  | f + 1, pos =>
    if ueq (charCodeAt s pos) (some 10) then pos
    else findLineBreakAfterGo s f (pos + 1)

/-- Source `findLineBreakAfter`. -/
def findLineBreakAfter (s : JSStr) (pos stop : Int) : Int :=
  findLineBreakAfterGo s (stop - pos).toNat pos

/-- The per-change loop of source `makePresentable`, left to right:
`posA` is the previous (updated) change's `toA`; the next change's
`fromA` is read from the unprocessed tail, as the source reads it before
updating it.  The word-alignment move updates the change and the
`lenBefore`/`lenAfter` pair exactly as the source's reassignments do. -/
def makePresentableGo (w : WordOracle) (a b : JSStr) : Int → List Change → List Change
  | _, [] => []
  | posA, ch0 :: rest =>
    let lenA := ch0.toA - ch0.fromA
    let lenB := ch0.toB - ch0.fromB
    let ch :=
      if (lenA != 0 && lenB != 0) || decide (lenA > 3) || decide (lenB > 3) then
        let nextChangeA :=
          match rest with
          | next :: _ => next.fromA
          | [] => (jsLength a : Int)
        let maxScanBefore := ch0.fromA - posA
        let maxScanAfter := nextChangeA - ch0.toA
        let boundBefore0 := findWordBoundaryBefore w a ch0.fromA maxScanBefore
        let boundAfter0 := findWordBoundaryAfter w a ch0.toA maxScanAfter
        let lenBefore0 := ch0.fromA - boundBefore0
        let lenAfter0 := boundAfter0 - ch0.toA
        let moved : Change × Int × Int :=
          if (lenA == 0 || lenB == 0) && lenBefore0 != 0 && lenAfter0 != 0 then
            let changeLen := max lenA lenB
            let cText := if lenA != 0 then a else b
            let cFrom := if lenA != 0 then ch0.fromA else ch0.fromB
            let cTo := if lenA != 0 then ch0.toA else ch0.toB
            if decide (changeLen > lenBefore0) &&
                strEq (jsSlice a boundBefore0 ch0.fromA)
                  (jsSlice cText (cTo - lenBefore0) cTo) then
              let c1 : Change := ⟨boundBefore0, boundBefore0 + lenA,
                ch0.fromB - lenBefore0, ch0.toB - lenBefore0⟩
              let boundAfter1 := findWordBoundaryAfter w a c1.toA (nextChangeA - c1.toA)
              (c1, 0, boundAfter1 - c1.toA)
            else if decide (changeLen > lenAfter0) &&
                strEq (jsSlice a ch0.toA boundAfter0)
                  (jsSlice cText cFrom (cFrom + lenAfter0)) then
              let c1 : Change := ⟨boundAfter0 - lenA, boundAfter0,
                ch0.fromB + lenAfter0, ch0.toB + lenAfter0⟩
              let boundBefore1 := findWordBoundaryBefore w a c1.fromA (c1.fromA - posA)
              (c1, c1.fromA - boundBefore1, 0)
            else (ch0, lenBefore0, lenAfter0)
          else (ch0, lenBefore0, lenAfter0)
        let c1 := moved.1
        let lenBefore := moved.2.1
        let lenAfter := moved.2.2
        if lenBefore != 0 || lenAfter != 0 then
          (⟨c1.fromA - lenBefore, c1.toA + lenAfter,
            c1.fromB - lenBefore, c1.toB + lenAfter⟩ : Change)
        else if lenA == 0 then
          let first := findLineBreakAfter b c1.fromB c1.toB
          let last := if first < 0 then -1 else findLineBreakBefore b c1.toB c1.fromB
          let lenF := first - c1.fromB
          if decide (first > -1) && decide (lenF ≤ maxScanAfter) &&
              strEq (jsSlice b c1.fromB first) (jsSlice b c1.toB (c1.toB + lenF)) then
            c1.offset lenF
          else
            let lenL := c1.toB - last
            if decide (last > -1) && decide (lenL ≤ maxScanBefore) &&
                strEq (jsSlice b (c1.fromB - lenL) c1.fromB) (jsSlice b last c1.toB) then
              c1.offset (-lenL)
            else c1
        else if lenB == 0 then
          let first := findLineBreakAfter a c1.fromA c1.toA
          let last := if first < 0 then -1 else findLineBreakBefore a c1.toA c1.fromA
          let lenF := first - c1.fromA
          if decide (first > -1) && decide (lenF ≤ maxScanAfter) &&
              strEq (jsSlice a c1.fromA first) (jsSlice a c1.toA (c1.toA + lenF)) then
            c1.offset lenF
          else
            let lenL := c1.toA - last
            if decide (last > -1) && decide (lenL ≤ maxScanBefore) &&
                strEq (jsSlice a (c1.fromA - lenL) c1.fromA) (jsSlice a last c1.toA) then
              c1.offset (-lenL)
            else c1
        else c1
      else ch0
    ch :: makePresentableGo w a b ch.toA rest

/-- Source `makePresentable` (the loop, then `mergeAdjacent(changes, 3)`). -/
def makePresentable (w : WordOracle) (changes : List Change) (a b : JSStr) :
    List Change :=
  mergeAdjacent 3 (makePresentableGo w a b 0 changes)

/-- Source `presentableDiff`, returning the change list and final state. -/
def presentableDiffRun (ctx : DiffCtx) (w : WordOracle) (a b : JSStr) :
    Option (List Change × DiffState) :=
  (diffRun ctx a b).map fun p => (makePresentable w p.1 a b, p.2)

/-- Source `presentableDiff` (the change list alone). -/
def presentableDiff (cfg : DiffConfig) (expired : Nat → Bool) (w : WordOracle)
    (a b : JSStr) : Option (List Change) :=
  (presentableDiffRun (DiffCtx.ofConfig cfg expired) w a b).map Prod.fst

/-- Source `Chunk`: a line-aligned range of changed lines, its changes
stored relative to its own `fromA`/`fromB`. -/
structure Chunk where
  changes : List Change
  fromA : Int
  toA : Int
  fromB : Int
  toB : Int
  precise : Bool := true
deriving Repr, DecidableEq

/-- Source `Chunk.offset` (returns the chunk itself when both offsets are
zero, as the source does). -/
def Chunk.offset (c : Chunk) (offA offB : Int) : Chunk :=
  if offA != 0 || offB != 0 then
    Chunk.mk c.changes (c.fromA + offA) (c.toA + offA)
      (c.fromB + offB) (c.toB + offB) c.precise
  else c

/-- CodeMirror `doc.lineAt(pos).from`, as a flat forward scan of the
first `pos` units: one past the last newline strictly before `pos`
(documents are modelled by their code-unit list). -/
def lineFromGo : Nat → Int → Int → JSStr → Int
  | 0, _, best, _ => best
  | f + 8, idx, best, c0 :: c1 :: c2 :: c3 :: c4 :: c5 :: c6 :: c7 :: t =>
    lineFromGo f (idx + 8)
      (if c7 == 10 then idx + 8 else if c6 == 10 then idx + 7
       else if c5 == 10 then idx + 6 else if c4 == 10 then idx + 5
       else if c3 == 10 then idx + 4 else if c2 == 10 then idx + 3
       else if c1 == 10 then idx + 2 else if c0 == 10 then idx + 1 else best) t
  | f + 1, idx, best, rest =>
    match rest with
    | [] => best
    | c :: t => lineFromGo f (idx + 1) (if c == 10 then idx + 1 else best) t

/-- Line start for a position (positions here are always within the
document). -/
def lineFrom (d : JSStr) (pos : Int) : Int := lineFromGo pos.toNat 0 0 d

/-- CodeMirror `doc.lineAt(pos).to`: the next newline at or after `pos`,
else the document length, as a flat scan from `pos`. -/
def lineToGo : Nat → Int → JSStr → Int
  | 0, pos, _ => pos
  | f + 8, pos, c0 :: c1 :: c2 :: c3 :: c4 :: c5 :: c6 :: c7 :: t =>
    if c0 == 10 then pos else if c1 == 10 then pos + 1
    else if c2 == 10 then pos + 2 else if c3 == 10 then pos + 3
    else if c4 == 10 then pos + 4 else if c5 == 10 then pos + 5
    else if c6 == 10 then pos + 6 else if c7 == 10 then pos + 7
    else lineToGo f (pos + 8) t
  | f + 1, pos, rest =>
    match rest with
    | [] => pos
    | c :: t => if c == 10 then pos else lineToGo f (pos + 1) t

/-- Line end for a position (positions here are always within the
document, so the no-newline scan ends exactly at the document length). -/
def lineTo (d : JSStr) (pos : Int) : Int :=
  lineToGo scanFuel (pos.toNat : Int) (dropGo scanFuel pos.toNat d)

/-- Source `fromLine`. -/
def fromLine (fromA fromB : Int) (a b : JSStr) : Int × Int :=
  if lineTo a fromA == fromA && lineTo b fromB == fromB &&
      decide (fromA < (jsLength a : Int)) && decide (fromB < (jsLength b : Int)) then
    (fromA + 1, fromB + 1)
  else (lineFrom a fromA, lineFrom b fromB)

/-- Source `toLine`. -/
def toLine (toA toB : Int) (a b : JSStr) : Int × Int :=
  if lineFrom a toA == toA && lineFrom b toB == toB then (toA, toB)
  else (lineTo a toA + 1, lineTo b toB + 1)

/-- The absorbing inner `while` of source `toChunks`: gather following
changes whose expanded line range touches the current chunk, returning
the absorbed (re-based) changes, the final `toA`/`toB`, and the changes
left over. -/
def toChunksInner (a b : JSStr) (offA offB fromA fromB : Int) :
    List Change → Int → Int → List Change × Int × Int × List Change
  | [], toA, toB => ([], toA, toB, [])
  | next :: rest, toA, toB =>
    let nl := fromLine (next.fromA + offA) (next.fromB + offB) a b
    if decide (nl.1 > toA + 1) && decide (nl.2 > toB + 1) then
      ([], toA, toB, next :: rest)
    else
      let tl := toLine (next.toA + offA) (next.toB + offB) a b
      let r := toChunksInner a b offA offB fromA fromB rest tl.1 tl.2
      (next.offset (-fromA + offA) (-fromB + offB) :: r.1, r.2.1, r.2.2.1, r.2.2.2)

/-- The outer loop of source `toChunks`; every round consumes at least the
head change, so the fuel `changes.length` covers it. -/
def toChunksGo (a b : JSStr) (offA offB : Int) (precise : Bool) :
    Nat → List Change → List Chunk
  | 0, _ => []
  | _ + 1, [] => []
  | f + 1, change :: rest =>
    let fl := fromLine (change.fromA + offA) (change.fromB + offB) a b
    let tl := toLine (change.toA + offA) (change.toB + offB) a b
    let inner := toChunksInner a b offA offB fl.1 fl.2 rest tl.1 tl.2
    Chunk.mk (change.offset (-fl.1 + offA) (-fl.2 + offB) :: inner.1)
        fl.1 (max fl.1 inner.2.1) fl.2 (max fl.2 inner.2.2.1) precise ::
      toChunksGo a b offA offB precise f inner.2.2.2

/-- Source `toChunks`. -/
def toChunks (changes : List Change) (a b : JSStr) (offA offB : Int)
    (precise : Bool) : List Chunk :=
  toChunksGo a b offA offB precise changes.length changes

/-- Source `updateMargin`. -/
def updateMargin : Int := 1000

/-- The binary-search loop of source `findPos`: `hi - lo` shrinks every
round, so `chunks.length + 2` bounds the rounds (fuel exhaustion and an
out-of-range read are unreachable). -/
def findPosGo (chunks : List Chunk) (pos : Int) (isA start : Bool) :
    Nat → Nat → Nat → Int × Int
  | 0, _, _ => (0, 0)
  | f + 1, lo, hi =>
    if lo == hi then
      let ref : Int × Int :=
        if lo != 0 then
          match chunks.get? (lo - 1) with
          | some c => (c.toA, c.toB)
          | none => (0, 0)
        else (0, 0)
      let off := pos - (if isA then ref.1 else ref.2)
      (ref.1 + off, ref.2 + off)
    else
      let mid := (lo + hi) / 2
      match chunks.get? mid with
      | some chunk =>
        let fr := if isA then chunk.fromA else chunk.fromB
        let t := if isA then chunk.toA else chunk.toB
        if decide (fr > pos) then findPosGo chunks pos isA start f lo mid
        else if decide (t ≤ pos) then findPosGo chunks pos isA start f (mid + 1) hi
        else if start then (chunk.fromA, chunk.fromB) else (chunk.toA, chunk.toB)
      | none => (0, 0)

/-- Source `findPos`. -/
def findPos (chunks : List Chunk) (pos : Int) (isA start : Bool) : Int × Int :=
  findPosGo chunks pos isA start (chunks.length + 2) 0 chunks.length

/-- The `ChangeDesc` interface the chunk model consumes: the ordered
changed ranges, as `iterChangedRanges` reports them
(`fromA, toA` in pre-change, `fromB, toB` in post-change coordinates),
and `.length`, the pre-change document length. -/
structure ChangeDesc where
  ranges : List (Int × Int × Int × Int)
  length : Int

/-- The window records of source `findRangesForChange`. -/
structure UpdateRange where
  fromA : Int
  toA : Int
  fromB : Int
  toB : Int
  diffA : Int
  diffB : Int
deriving Repr, DecidableEq

/-- Source `findRangesForChange` (the accumulator is kept reversed so the
source's merge with the last pushed range is a head operation). -/
def findRangesForChange (chunks : List Chunk) (changes : ChangeDesc)
    (isA : Bool) (otherLen : Int) : List UpdateRange :=
  (changes.ranges.foldl (fun acc r =>
    let cFromA := r.1
    let cToA := r.2.1
    let cFromB := r.2.2.1
    let cToB := r.2.2.2
    let toA0 := if isA then changes.length else otherLen
    let toB0 := if isA then otherLen else changes.length
    let fs := if decide (cFromA > updateMargin) then
        findPos chunks (cFromA - updateMargin) isA true
      else ((0 : Int), (0 : Int))
    let ts := if decide (cToA < changes.length - updateMargin) then
        findPos chunks (cToA + updateMargin) isA false
      else (toA0, toB0)
    let lenDiff := (cToB - cFromB) - (cToA - cFromA)
    let dA := if isA then lenDiff else 0
    let dB := if isA then 0 else lenDiff
    match acc with
    | last :: restAcc =>
      if decide (last.toA ≥ fs.1) then
        UpdateRange.mk last.fromA ts.1 last.fromB ts.2
          (last.diffA + dA) (last.diffB + dB) :: restAcc
      else UpdateRange.mk fs.1 ts.1 fs.2 ts.2 dA dB :: acc
    | [] => [UpdateRange.mk fs.1 ts.1 fs.2 ts.2 dA dB]) []).reverse

/-- The first inner loop of source `updateChunks`: copy, translated, the
chunks lying entirely before the window start; return them and the rest. -/
def copyUntil (offA offB fromA fromB : Int) : List Chunk → List Chunk × List Chunk
  | [] => ([], [])
  | c :: rest =>
    if decide (c.toA + offA > fromA) || decide (c.toB + offB > fromB) then
      ([], c :: rest)
    else
      let r := copyUntil offA offB fromA fromB rest
      (c.offset offA offB :: r.1, r.2)

/-- The second inner loop of source `updateChunks`: skip the chunks the
window replaced. -/
def dropUntil (offA offB toA toB : Int) : List Chunk → List Chunk
  | [] => []
  | c :: rest =>
    if decide (c.fromA + offA > toA) && decide (c.fromB + offB > toB) then c :: rest
    else dropUntil offA offB toA toB rest

/-- The main loop of source `updateChunks` over the computed windows
(each window re-runs `presentableDiff` on the document slices and splices
the resulting chunks in). -/
def updateChunksGo (ctx : DiffCtx) (w : WordOracle) (a b : JSStr) :
    List UpdateRange → List Chunk → Int → Int → Option (List Chunk)
  | [], chunks, offA, offB =>
    (copyUntil offA offB (jsLength a : Int) (jsLength b : Int) chunks).1 |> some
  | range :: rest, chunks, offA, offB =>
    let fromA := range.fromA + offA
    let fromB := range.fromB + offB
    let cp := copyUntil offA offB fromA fromB chunks
    let toA := range.toA + offA + range.diffA
    let toB := range.toB + offB + range.diffB
    (presentableDiffRun ctx w (jsSlice a fromA toA) (jsSlice b fromB toB)).bind fun p =>
      let newChunks := toChunks p.1 a b fromA fromB (!p.2.crude)
      let remaining := dropUntil (offA + range.diffA) (offB + range.diffB) toA toB cp.2
      (updateChunksGo ctx w a b rest remaining
          (offA + range.diffA) (offB + range.diffB)).map
        fun tail => cp.1 ++ newChunks ++ tail

/-- Source `updateChunks` (returns the chunk list itself when there is no
window). -/
def updateChunks (ctx : DiffCtx) (w : WordOracle) (ranges : List UpdateRange)
    (chunks : List Chunk) (a b : JSStr) : Option (List Chunk) :=
  if ranges = [] then some chunks
  else updateChunksGo ctx w a b ranges chunks 0 0

/-- Source `Chunk.build`. -/
def Chunk.build (ctx : DiffCtx) (w : WordOracle) (a b : JSStr) :
    Option (List Chunk) :=
  (presentableDiffRun ctx w a b).map fun p => toChunks p.1 a b 0 0 (!p.2.crude)

/-- Source `Chunk.updateA`. -/
def Chunk.updateA (ctx : DiffCtx) (w : WordOracle) (chunks : List Chunk)
    (a b : JSStr) (changes : ChangeDesc) : Option (List Chunk) :=
  updateChunks ctx w (findRangesForChange chunks changes true (jsLength b : Int))
    chunks a b

/-- Source `Chunk.updateB`. -/
def Chunk.updateB (ctx : DiffCtx) (w : WordOracle) (chunks : List Chunk)
    (a b : JSStr) (changes : ChangeDesc) : Option (List Chunk) :=
  updateChunks ctx w (findRangesForChange chunks changes false (jsLength a : Int))
    chunks a b

/-! ### Inputs of the concrete evaluations -/

/-- A timing oracle on which the clock never expires (no concrete run
below configures a timeout, so no oracle is ever consulted). -/
def orcF : Nat → Bool := fun _ => false

/-- A word-character oracle answering `false`; every concrete run below
stays on code units the source decides by `asciiWordChar`, so its answers
never matter. -/
def wF : WordOracle := fun _ => false

/-- The reassembly C1 describes: the text of `a` outside the spans,
each span's A-range replaced by its B-text (modelled from the claim's
words, to compare against `diff`'s output). -/
def applySpans (a b : JSStr) (spans : List Change) : JSStr :=
  let r := spans.foldl
    (fun acc c => (acc.1 ++ jsSlice a acc.2 c.fromA ++ jsSlice b c.fromB c.toB, c.toA))
    (([] : JSStr), (0 : Int))
  r.1 ++ jsSlice a r.2 (jsLength a : Int)

/-- C1's document A: `"\udfffa\udfffb"` (lone low surrogates around
ASCII letters). -/
def c1a : JSStr := [57343, 97, 57343, 98]

/-- C1's document B: `"a\udfff\ud800\udfffb"`. -/
def c1b : JSStr := [97, 57343, 55296, 57343, 98]

/-- C3's document A: `"\udbff\ud800\udc00"`. -/
def c3a : JSStr := [56319, 55296, 56320]

/-- C3's document B: `"\udbff\ud800a\udc00"`. -/
def c3b : JSStr := [56319, 55296, 97, 56320]

/-- The context of the default configuration, for an arbitrary timing
oracle (no timeout is configured, so the oracle is inert). -/
def ctxOf (e : Nat → Bool) : DiffCtx := DiffCtx.ofConfig {} e

/-- C5's document A, `"line1\nline2\nline3"`. -/
def c5a : JSStr := [108, 105, 110, 101, 49, 10, 108, 105, 110, 101, 50, 10, 108, 105, 110, 101, 51]

/-- C5's document B, `"line1\nlineX\nline3"`. -/
def c5b : JSStr := [108, 105, 110, 101, 49, 10, 108, 105, 110, 101, 88, 10, 108, 105, 110, 101, 51]

/-- C7's document A, `"A   B"`. -/
def c7a : JSStr := [65, 32, 32, 32, 66]

/-- C7's document B, `"C   D"`. -/
def c7b : JSStr := [67, 32, 32, 32, 68]

/-- C8's document A, `"hello world"`. -/
def c8a : JSStr := [104, 101, 108, 108, 111, 32, 119, 111, 114, 108, 100]

/-- C8's document B, `"hello there"`. -/
def c8b : JSStr := [104, 101, 108, 108, 111, 32, 116, 104, 101, 114, 101]

/-- C9's document A, a full surrogate pair. -/
def c9a : JSStr := [55296, 56320]

/-- C9's document B, the pair's high half alone. -/
def c9b : JSStr := [55296]

/-- The adjacency the merge pass of `mergeAdjacent` rules out: two
consecutive changes both of whose gaps are below `minGap`. -/
def unmerged (minGap : Int) (p c : Change) : Prop :=
  ¬(p.toA > c.fromA - minGap ∧ p.toB > c.fromB - minGap)

/-- C4's old document (2010 code units of punctuation on a single line;
both windows the incremental update computes lie inside it). -/
def c4old : JSStr := [33, 34, 37, 42, 35, 44, 41, 40, 41, 44, 35, 42, 37, 34, 33, 34, 37, 42, 35, 44, 41, 40, 41, 45, 36, 43, 38, 35, 34, 35, 38, 43, 37, 46, 43, 42, 43, 46, 37, 45, 40, 37, 36, 37, 40, 46, 39, 34, 45, 44, 45, 35, 40, 33, 42, 40, 39, 40, 43, 34, 42, 37, 34, 33, 35, 38, 43, 36, 46, 43, 42, 44, 33, 38, 45, 41, 38, 37, 39, 42, 33, 41, 36, 33, 33, 34, 37, 43, 36, 45, 43, 42, 43, 33, 38, 45, 41, 38, 38, 39, 42, 34, 41, 37, 34, 33, 35, 38, 44, 37, 33, 44, 43, 45, 34, 40, 33, 43, 40, 40, 41, 45, 36, 44, 39, 37, 36, 38, 41, 33, 40, 36, 33, 33, 34, 38, 43, 37, 46, 44, 43, 45, 35, 40, 34, 43, 41, 40, 42, 46, 37, 45, 40, 38, 38, 39, 43, 35, 42, 38, 35, 35, 37, 40, 46, 40, 35, 33, 33, 34, 38, 44, 37, 33, 45, 44, 46, 36, 41, 35, 45, 43, 42, 44, 34, 40, 33, 43, 41, 41, 42, 46, 38, 46, 41, 39, 39, 41, 44, 36, 44, 40, 38, 37, 39, 43, 35, 43, 39, 36, 36, 38, 42, 34, 42, 37, 35, 35, 37, 41, 33, 41, 36, 34, 34, 36, 40, 46, 40, 36, 34, 34, 36, 39, 45, 39, 35, 33, 33, 35, 39, 45, 39, 35, 33, 33, 35, 39, 45, 39, 35, 33, 33, 35, 39, 45, 39, 35, 33, 33, 35, 39, 45, 39, 35, 33, 33, 35, 39, 45, 39, 36, 34, 34, 36, 40, 46, 40, 36, 34, 34, 36, 41, 33, 41, 37, 35, 35, 37, 42, 34, 42, 38, 36, 36, 39, 43, 35, 43, 39, 37, 38, 40, 44, 36, 44, 41, 39, 39, 41, 46, 38, 46, 42, 41, 41, 43, 33, 40, 34, 44, 42, 43, 45, 35, 41, 36, 46, 44, 45, 33, 37, 44, 38, 34, 33, 33, 35, 40, 46, 40, 37, 35, 35, 38, 42, 35, 43, 39, 38, 38, 40, 45, 37, 46, 42, 40, 41, 43, 34, 40, 35, 45, 43, 44, 46, 37, 43, 38, 34, 33, 33, 36, 40, 33, 41, 38, 36, 37, 39, 44, 36, 45, 41, 40, 40, 43, 33, 40, 34, 45, 43, 44, 33, 37, 44, 38, 35, 33, 34, 37, 41, 34, 42, 39, 38, 38, 41, 45, 38, 33, 43, 42, 43, 45, 36, 43, 37, 34, 33, 33, 36, 41, 33, 42, 39, 37, 38, 41, 45, 38, 33, 44, 42, 43, 46, 36, 43, 38, 35, 33, 34, 37, 42, 34, 43, 40, 39, 40, 42, 33, 40, 35, 45, 44, 45, 34, 39, 46, 40, 37, 36, 37, 40, 45, 37, 46, 43, 42, 43, 46, 37, 43, 38, 35, 34, 35, 38, 43, 36, 45, 41, 40, 41, 44, 35, 42, 37, 34, 33, 34, 37, 42, 35, 44, 41, 40, 41, 44, 35, 42, 37, 34, 33, 34, 37, 42, 35, 44, 41, 40, 41, 44, 35, 42, 37, 34, 33, 34, 37, 42, 35, 44, 41, 40, 41, 45, 36, 43, 38, 35, 34, 35, 38, 43, 37, 46, 43, 42, 43, 46, 37, 45, 40, 37, 36, 37, 40, 46, 39, 34, 45, 44, 45, 35, 40, 33, 42, 40, 39, 40, 43, 34, 42, 37, 34, 33, 35, 38, 43, 36, 46, 43, 42, 44, 33, 38, 45, 41, 38, 37, 39, 42, 33, 41, 36, 33, 33, 34, 37, 43, 36, 45, 43, 42, 43, 33, 38, 45, 41, 38, 38, 39, 42, 34, 41, 37, 34, 33, 35, 38, 44, 37, 33, 44, 43, 45, 34, 40, 33, 43, 40, 40, 41, 45, 36, 44, 39, 37, 36, 38, 41, 33, 40, 36, 33, 33, 34, 38, 43, 37, 46, 44, 43, 45, 35, 40, 34, 43, 41, 40, 42, 46, 37, 45, 40, 38, 38, 39, 43, 35, 42, 38, 35, 35, 37, 40, 46, 40, 35, 33, 33, 34, 38, 44, 37, 33, 45, 44, 46, 36, 41, 35, 45, 43, 42, 44, 34, 40, 33, 43, 41, 41, 42, 46, 38, 46, 41, 39, 39, 41, 44, 36, 44, 40, 38, 37, 39, 43, 35, 43, 39, 36, 36, 38, 42, 34, 42, 37, 35, 35, 37, 41, 33, 41, 36, 34, 34, 36, 40, 46, 40, 36, 34, 34, 36, 39, 45, 39, 35, 33, 33, 35, 39, 45, 39, 35, 33, 33, 35, 39, 45, 39, 35, 33, 33, 35, 39, 45, 39, 35, 33, 33, 35, 39, 45, 39, 35, 33, 33, 35, 39, 45, 39, 36, 34, 34, 36, 40, 46, 40, 36, 34, 34, 36, 41, 33, 41, 37, 35, 35, 37, 42, 34, 42, 38, 36, 36, 39, 43, 35, 43, 39, 37, 38, 40, 44, 36, 44, 41, 39, 39, 41, 46, 38, 46, 42, 41, 41, 43, 33, 40, 34, 44, 42, 43, 45, 35, 41, 36, 46, 44, 45, 33, 37, 44, 38, 34, 33, 33, 35, 40, 46, 40, 37, 35, 35, 38, 42, 35, 43, 39, 38, 38, 40, 45, 37, 46, 42, 40, 41, 43, 34, 40, 35, 45, 43, 44, 46, 37, 43, 38, 34, 33, 33, 36, 40, 33, 41, 38, 36, 37, 39, 44, 36, 45, 41, 40, 40, 43, 33, 40, 34, 45, 43, 44, 33, 37, 44, 38, 35, 33, 34, 37, 41, 34, 42, 39, 38, 38, 41, 45, 38, 33, 43, 42, 43, 45, 36, 43, 37, 34, 33, 33, 36, 41, 33, 42, 39, 37, 38, 41, 45, 38, 33, 44, 42, 43, 46, 36, 43, 38, 35, 33, 34, 37, 42, 34, 43, 40, 39, 40, 42, 33, 40, 35, 45, 44, 45, 34, 39, 46, 40, 37, 36, 37, 40, 45, 37, 46, 43, 42, 43, 46, 37, 43, 38, 35, 34, 35, 38, 43, 36, 45, 41, 40, 41, 44, 35, 42, 37, 34, 33, 34, 37, 42, 35, 44, 41, 40, 41, 44, 35, 42, 37, 34, 33, 34, 37, 42, 35, 44, 41, 40, 41, 44, 35, 42, 37, 34, 33, 34, 37, 42, 35, 44, 41, 40, 41, 45, 36, 43, 38, 35, 34, 35, 38, 43, 37, 46, 43, 42, 43, 46, 37, 45, 40, 37, 36, 37, 40, 46, 39, 34, 45, 44, 45, 35, 40, 33, 42, 40, 39, 40, 43, 34, 42, 37, 34, 33, 35, 38, 43, 36, 46, 43, 42, 44, 33, 38, 45, 41, 38, 37, 39, 42, 33, 41, 36, 33, 33, 34, 37, 43, 36, 45, 43, 42, 43, 33, 38, 45, 41, 38, 38, 39, 42, 34, 41, 37, 34, 33, 35, 38, 44, 37, 33, 44, 43, 45, 34, 40, 33, 43, 40, 40, 41, 45, 36, 44, 39, 37, 36, 38, 41, 33, 40, 36, 33, 33, 34, 38, 43, 37, 46, 44, 43, 45, 35, 40, 34, 43, 41, 40, 42, 46, 37, 45, 40, 38, 38, 39, 43, 35, 42, 38, 35, 35, 37, 40, 46, 40, 35, 33, 33, 34, 38, 44, 37, 33, 45, 44, 46, 36, 41, 35, 45, 43, 42, 44, 34, 40, 33, 43, 41, 41, 42, 46, 38, 46, 41, 39, 39, 41, 44, 36, 44, 40, 38, 37, 39, 43, 35, 43, 39, 36, 36, 38, 42, 34, 42, 37, 35, 35, 37, 41, 33, 41, 36, 34, 34, 36, 40, 46, 40, 36, 34, 34, 36, 39, 45, 39, 35, 33, 33, 35, 39, 45, 39, 35, 33, 33, 35, 39, 45, 39, 35, 33, 33, 35, 39, 45, 39, 35, 33, 33, 35, 39, 45, 39, 35, 33, 33, 35, 39, 45, 39, 36, 34, 34, 36, 40, 46, 40, 36, 34, 34, 36, 41, 33, 41, 37, 35, 35, 37, 42, 34, 42, 38, 36, 36, 39, 43, 35, 43, 39, 37, 38, 40, 44, 36, 44, 41, 39, 39, 41, 46, 38, 46, 42, 41, 41, 43, 33, 40, 34, 44, 42, 43, 45, 35, 41, 36, 46, 44, 45, 33, 37, 44, 38, 34, 33, 33, 35, 40, 46, 40, 37, 35, 35, 38, 42, 35, 43, 39, 38, 38, 40, 45, 37, 46, 42, 40, 41, 43, 34, 40, 35, 45, 43, 44, 46, 37, 43, 38, 34, 33, 33, 36, 40, 33, 41, 38, 36, 37, 39, 44, 36, 45, 41, 40, 40, 43, 33, 40, 34, 45, 43, 44, 33, 37, 44, 38, 35, 33, 34, 37, 41, 34, 42, 39, 38, 38, 41, 45, 38, 33, 43, 42, 43, 45, 36, 43, 37, 34, 33, 33, 36, 41, 33, 42, 39, 37, 38, 41, 45, 38, 33, 44, 42, 43, 46, 36, 43, 38, 35, 33, 34, 37, 42, 34, 43, 40, 39, 40, 42, 33, 40, 35, 45, 44, 45, 34, 39, 46, 40, 37, 36, 37, 40, 45, 37, 46, 43, 42, 43, 46, 37, 43, 38, 35, 34, 35, 38, 43, 36, 45, 41, 40, 41, 44, 35, 42, 37, 34, 33, 34, 37, 42, 35, 44, 41, 40, 41, 44, 35, 42, 37, 34, 33, 34, 37, 42, 35, 44, 41, 40, 41, 44, 35, 42, 37, 34, 33, 34, 37, 42, 35, 44, 41, 40, 41, 45, 36, 43, 38, 35, 34, 35, 38, 43, 37, 46, 43, 42, 43, 46, 37, 45, 40, 37, 36, 37, 40, 46, 39, 34, 45, 44, 45, 35, 40, 33, 42, 40, 39, 40, 43, 34, 42, 37, 34, 33, 35, 38, 43, 36, 46, 43, 42, 44, 33, 38, 45, 41, 38, 37, 39, 42, 33, 41, 36, 33, 33, 34, 37, 43, 36, 45, 43, 42, 43, 33, 38, 45, 41, 38, 38, 39, 42, 34, 41, 37, 34, 33, 35, 38, 44, 37, 33, 44, 43, 45, 34, 40, 33, 43, 40, 40, 41, 45, 36, 44, 39, 37, 36, 38, 41, 33, 40, 36, 33, 33, 34, 38, 43, 37, 46, 44, 43, 45, 35, 40, 34, 43, 41, 40, 42, 46, 37, 45, 40, 38, 38, 39, 43, 35, 42, 38, 35, 35, 37, 40, 46, 40, 35, 33, 33, 34, 38, 44, 37, 33, 45, 44, 46, 36, 41, 35, 45, 43, 42, 44, 34, 40, 33, 43, 41, 41, 42, 46, 38, 46, 41, 39, 39, 41, 44, 36, 44, 40, 38, 37, 39, 43, 35, 43, 39, 36, 36, 38, 42, 34, 42, 37, 35, 35, 37, 41, 33, 41, 36, 34, 34, 36, 40, 46, 40, 36, 34, 34, 36, 39, 45, 39, 35, 33, 33, 35, 39, 45, 39, 35, 33, 33, 35, 39, 45, 39, 35, 33, 33, 35, 39, 45, 39, 35, 33, 33, 35, 39, 45, 39, 35, 33, 33, 35, 39, 45, 39, 36, 34, 34, 36, 40, 46, 40, 36, 34, 34, 36, 41, 33, 41, 37, 35, 35, 37, 42, 34, 42, 38, 36, 36, 39, 43, 35, 43, 39, 37, 38, 40, 44, 36, 44, 41, 39, 39, 41, 46, 38, 46, 42, 41, 41, 43, 33, 40, 34, 44, 42, 43, 45, 35, 41, 36, 46, 44, 45, 33, 37, 44, 38, 34, 33, 33, 35, 40, 46, 40, 37, 35, 35, 38, 42, 35, 43, 39, 38, 38, 40, 45, 37, 46, 42, 40, 41, 43, 34, 40, 35, 45, 43, 44, 46, 37, 43, 38, 34, 33, 33, 36, 40, 33, 41, 38, 36, 37, 39, 44, 36, 45, 41, 40, 40, 43, 33, 40, 34, 45, 43, 44, 33, 37, 44, 38, 35, 33, 34, 37, 41, 34, 42, 39, 38, 38, 41, 45, 38, 33, 43, 42, 43, 45, 36, 43, 37, 34, 33, 33, 36, 41, 33, 42, 39, 37, 38, 41, 45, 38, 33, 44, 42, 43, 46, 36, 43, 38, 35, 33, 34, 37, 42, 34, 43, 40, 39, 40, 42, 33, 40, 35, 45, 44, 45, 34, 39, 46, 40, 37, 36, 37, 40, 45, 37, 46, 43, 42, 43, 46, 37, 43, 38, 35, 34, 35, 38, 43, 36, 45, 41, 40, 41, 44, 35, 42, 37, 34, 33, 34, 37, 42, 35, 44, 41, 40, 41, 44, 35, 42]

/-- C4's new document: `c4old` with the units at positions 0 and 2005
replaced by 47. -/
def c4new : JSStr := [47, 34, 37, 42, 35, 44, 41, 40, 41, 44, 35, 42, 37, 34, 33, 34, 37, 42, 35, 44, 41, 40, 41, 45, 36, 43, 38, 35, 34, 35, 38, 43, 37, 46, 43, 42, 43, 46, 37, 45, 40, 37, 36, 37, 40, 46, 39, 34, 45, 44, 45, 35, 40, 33, 42, 40, 39, 40, 43, 34, 42, 37, 34, 33, 35, 38, 43, 36, 46, 43, 42, 44, 33, 38, 45, 41, 38, 37, 39, 42, 33, 41, 36, 33, 33, 34, 37, 43, 36, 45, 43, 42, 43, 33, 38, 45, 41, 38, 38, 39, 42, 34, 41, 37, 34, 33, 35, 38, 44, 37, 33, 44, 43, 45, 34, 40, 33, 43, 40, 40, 41, 45, 36, 44, 39, 37, 36, 38, 41, 33, 40, 36, 33, 33, 34, 38, 43, 37, 46, 44, 43, 45, 35, 40, 34, 43, 41, 40, 42, 46, 37, 45, 40, 38, 38, 39, 43, 35, 42, 38, 35, 35, 37, 40, 46, 40, 35, 33, 33, 34, 38, 44, 37, 33, 45, 44, 46, 36, 41, 35, 45, 43, 42, 44, 34, 40, 33, 43, 41, 41, 42, 46, 38, 46, 41, 39, 39, 41, 44, 36, 44, 40, 38, 37, 39, 43, 35, 43, 39, 36, 36, 38, 42, 34, 42, 37, 35, 35, 37, 41, 33, 41, 36, 34, 34, 36, 40, 46, 40, 36, 34, 34, 36, 39, 45, 39, 35, 33, 33, 35, 39, 45, 39, 35, 33, 33, 35, 39, 45, 39, 35, 33, 33, 35, 39, 45, 39, 35, 33, 33, 35, 39, 45, 39, 35, 33, 33, 35, 39, 45, 39, 36, 34, 34, 36, 40, 46, 40, 36, 34, 34, 36, 41, 33, 41, 37, 35, 35, 37, 42, 34, 42, 38, 36, 36, 39, 43, 35, 43, 39, 37, 38, 40, 44, 36, 44, 41, 39, 39, 41, 46, 38, 46, 42, 41, 41, 43, 33, 40, 34, 44, 42, 43, 45, 35, 41, 36, 46, 44, 45, 33, 37, 44, 38, 34, 33, 33, 35, 40, 46, 40, 37, 35, 35, 38, 42, 35, 43, 39, 38, 38, 40, 45, 37, 46, 42, 40, 41, 43, 34, 40, 35, 45, 43, 44, 46, 37, 43, 38, 34, 33, 33, 36, 40, 33, 41, 38, 36, 37, 39, 44, 36, 45, 41, 40, 40, 43, 33, 40, 34, 45, 43, 44, 33, 37, 44, 38, 35, 33, 34, 37, 41, 34, 42, 39, 38, 38, 41, 45, 38, 33, 43, 42, 43, 45, 36, 43, 37, 34, 33, 33, 36, 41, 33, 42, 39, 37, 38, 41, 45, 38, 33, 44, 42, 43, 46, 36, 43, 38, 35, 33, 34, 37, 42, 34, 43, 40, 39, 40, 42, 33, 40, 35, 45, 44, 45, 34, 39, 46, 40, 37, 36, 37, 40, 45, 37, 46, 43, 42, 43, 46, 37, 43, 38, 35, 34, 35, 38, 43, 36, 45, 41, 40, 41, 44, 35, 42, 37, 34, 33, 34, 37, 42, 35, 44, 41, 40, 41, 44, 35, 42, 37, 34, 33, 34, 37, 42, 35, 44, 41, 40, 41, 44, 35, 42, 37, 34, 33, 34, 37, 42, 35, 44, 41, 40, 41, 45, 36, 43, 38, 35, 34, 35, 38, 43, 37, 46, 43, 42, 43, 46, 37, 45, 40, 37, 36, 37, 40, 46, 39, 34, 45, 44, 45, 35, 40, 33, 42, 40, 39, 40, 43, 34, 42, 37, 34, 33, 35, 38, 43, 36, 46, 43, 42, 44, 33, 38, 45, 41, 38, 37, 39, 42, 33, 41, 36, 33, 33, 34, 37, 43, 36, 45, 43, 42, 43, 33, 38, 45, 41, 38, 38, 39, 42, 34, 41, 37, 34, 33, 35, 38, 44, 37, 33, 44, 43, 45, 34, 40, 33, 43, 40, 40, 41, 45, 36, 44, 39, 37, 36, 38, 41, 33, 40, 36, 33, 33, 34, 38, 43, 37, 46, 44, 43, 45, 35, 40, 34, 43, 41, 40, 42, 46, 37, 45, 40, 38, 38, 39, 43, 35, 42, 38, 35, 35, 37, 40, 46, 40, 35, 33, 33, 34, 38, 44, 37, 33, 45, 44, 46, 36, 41, 35, 45, 43, 42, 44, 34, 40, 33, 43, 41, 41, 42, 46, 38, 46, 41, 39, 39, 41, 44, 36, 44, 40, 38, 37, 39, 43, 35, 43, 39, 36, 36, 38, 42, 34, 42, 37, 35, 35, 37, 41, 33, 41, 36, 34, 34, 36, 40, 46, 40, 36, 34, 34, 36, 39, 45, 39, 35, 33, 33, 35, 39, 45, 39, 35, 33, 33, 35, 39, 45, 39, 35, 33, 33, 35, 39, 45, 39, 35, 33, 33, 35, 39, 45, 39, 35, 33, 33, 35, 39, 45, 39, 36, 34, 34, 36, 40, 46, 40, 36, 34, 34, 36, 41, 33, 41, 37, 35, 35, 37, 42, 34, 42, 38, 36, 36, 39, 43, 35, 43, 39, 37, 38, 40, 44, 36, 44, 41, 39, 39, 41, 46, 38, 46, 42, 41, 41, 43, 33, 40, 34, 44, 42, 43, 45, 35, 41, 36, 46, 44, 45, 33, 37, 44, 38, 34, 33, 33, 35, 40, 46, 40, 37, 35, 35, 38, 42, 35, 43, 39, 38, 38, 40, 45, 37, 46, 42, 40, 41, 43, 34, 40, 35, 45, 43, 44, 46, 37, 43, 38, 34, 33, 33, 36, 40, 33, 41, 38, 36, 37, 39, 44, 36, 45, 41, 40, 40, 43, 33, 40, 34, 45, 43, 44, 33, 37, 44, 38, 35, 33, 34, 37, 41, 34, 42, 39, 38, 38, 41, 45, 38, 33, 43, 42, 43, 45, 36, 43, 37, 34, 33, 33, 36, 41, 33, 42, 39, 37, 38, 41, 45, 38, 33, 44, 42, 43, 46, 36, 43, 38, 35, 33, 34, 37, 42, 34, 43, 40, 39, 40, 42, 33, 40, 35, 45, 44, 45, 34, 39, 46, 40, 37, 36, 37, 40, 45, 37, 46, 43, 42, 43, 46, 37, 43, 38, 35, 34, 35, 38, 43, 36, 45, 41, 40, 41, 44, 35, 42, 37, 34, 33, 34, 37, 42, 35, 44, 41, 40, 41, 44, 35, 42, 37, 34, 33, 34, 37, 42, 35, 44, 41, 40, 41, 44, 35, 42, 37, 34, 33, 34, 37, 42, 35, 44, 41, 40, 41, 45, 36, 43, 38, 35, 34, 35, 38, 43, 37, 46, 43, 42, 43, 46, 37, 45, 40, 37, 36, 37, 40, 46, 39, 34, 45, 44, 45, 35, 40, 33, 42, 40, 39, 40, 43, 34, 42, 37, 34, 33, 35, 38, 43, 36, 46, 43, 42, 44, 33, 38, 45, 41, 38, 37, 39, 42, 33, 41, 36, 33, 33, 34, 37, 43, 36, 45, 43, 42, 43, 33, 38, 45, 41, 38, 38, 39, 42, 34, 41, 37, 34, 33, 35, 38, 44, 37, 33, 44, 43, 45, 34, 40, 33, 43, 40, 40, 41, 45, 36, 44, 39, 37, 36, 38, 41, 33, 40, 36, 33, 33, 34, 38, 43, 37, 46, 44, 43, 45, 35, 40, 34, 43, 41, 40, 42, 46, 37, 45, 40, 38, 38, 39, 43, 35, 42, 38, 35, 35, 37, 40, 46, 40, 35, 33, 33, 34, 38, 44, 37, 33, 45, 44, 46, 36, 41, 35, 45, 43, 42, 44, 34, 40, 33, 43, 41, 41, 42, 46, 38, 46, 41, 39, 39, 41, 44, 36, 44, 40, 38, 37, 39, 43, 35, 43, 39, 36, 36, 38, 42, 34, 42, 37, 35, 35, 37, 41, 33, 41, 36, 34, 34, 36, 40, 46, 40, 36, 34, 34, 36, 39, 45, 39, 35, 33, 33, 35, 39, 45, 39, 35, 33, 33, 35, 39, 45, 39, 35, 33, 33, 35, 39, 45, 39, 35, 33, 33, 35, 39, 45, 39, 35, 33, 33, 35, 39, 45, 39, 36, 34, 34, 36, 40, 46, 40, 36, 34, 34, 36, 41, 33, 41, 37, 35, 35, 37, 42, 34, 42, 38, 36, 36, 39, 43, 35, 43, 39, 37, 38, 40, 44, 36, 44, 41, 39, 39, 41, 46, 38, 46, 42, 41, 41, 43, 33, 40, 34, 44, 42, 43, 45, 35, 41, 36, 46, 44, 45, 33, 37, 44, 38, 34, 33, 33, 35, 40, 46, 40, 37, 35, 35, 38, 42, 35, 43, 39, 38, 38, 40, 45, 37, 46, 42, 40, 41, 43, 34, 40, 35, 45, 43, 44, 46, 37, 43, 38, 34, 33, 33, 36, 40, 33, 41, 38, 36, 37, 39, 44, 36, 45, 41, 40, 40, 43, 33, 40, 34, 45, 43, 44, 33, 37, 44, 38, 35, 33, 34, 37, 41, 34, 42, 39, 38, 38, 41, 45, 38, 33, 43, 42, 43, 45, 36, 43, 37, 34, 33, 33, 36, 41, 33, 42, 39, 37, 38, 41, 45, 38, 33, 44, 42, 43, 46, 36, 43, 38, 35, 33, 34, 37, 42, 34, 43, 40, 39, 40, 42, 33, 40, 35, 45, 44, 45, 34, 39, 46, 40, 37, 36, 37, 40, 45, 37, 46, 43, 42, 43, 46, 37, 43, 38, 35, 34, 35, 38, 43, 36, 45, 41, 40, 41, 44, 35, 42, 37, 34, 33, 34, 37, 42, 35, 44, 41, 40, 41, 44, 35, 42, 37, 34, 33, 34, 37, 42, 35, 44, 41, 40, 41, 44, 35, 42, 37, 34, 33, 34, 37, 42, 35, 44, 41, 40, 41, 45, 36, 43, 38, 35, 34, 35, 38, 43, 37, 46, 43, 42, 43, 46, 37, 45, 40, 37, 36, 37, 40, 46, 39, 34, 45, 44, 45, 35, 40, 33, 42, 40, 39, 40, 43, 34, 42, 37, 34, 33, 35, 38, 43, 36, 46, 43, 42, 44, 33, 38, 45, 41, 38, 37, 39, 42, 33, 41, 36, 33, 33, 34, 37, 43, 36, 45, 43, 42, 43, 33, 38, 45, 41, 38, 38, 39, 42, 34, 41, 37, 34, 33, 35, 38, 44, 37, 33, 44, 43, 45, 34, 40, 33, 43, 40, 40, 41, 45, 36, 44, 39, 37, 36, 38, 41, 33, 40, 36, 33, 33, 34, 38, 43, 37, 46, 44, 43, 45, 35, 40, 34, 43, 41, 40, 42, 46, 37, 45, 40, 38, 38, 39, 43, 35, 42, 38, 35, 35, 37, 40, 46, 40, 35, 33, 33, 34, 38, 44, 37, 33, 45, 44, 46, 36, 41, 35, 45, 43, 42, 44, 34, 40, 33, 43, 41, 41, 42, 46, 38, 46, 41, 39, 39, 41, 44, 36, 44, 40, 38, 37, 39, 43, 35, 43, 39, 36, 36, 38, 42, 34, 42, 37, 35, 35, 37, 41, 33, 41, 36, 34, 34, 36, 40, 46, 40, 36, 34, 34, 36, 39, 45, 39, 35, 33, 33, 35, 39, 45, 39, 35, 33, 33, 35, 39, 45, 39, 35, 33, 33, 35, 39, 45, 39, 35, 33, 33, 35, 39, 45, 39, 35, 33, 33, 35, 39, 45, 39, 36, 34, 34, 36, 40, 46, 40, 36, 34, 34, 36, 41, 33, 41, 37, 35, 35, 37, 42, 34, 42, 38, 36, 36, 39, 43, 35, 43, 39, 37, 38, 40, 44, 36, 44, 41, 39, 39, 41, 46, 38, 46, 42, 41, 41, 43, 33, 40, 34, 44, 42, 43, 45, 35, 41, 36, 46, 44, 45, 33, 37, 44, 38, 34, 33, 33, 35, 40, 46, 40, 37, 35, 35, 38, 42, 35, 43, 39, 38, 38, 40, 45, 37, 46, 42, 40, 41, 43, 34, 40, 35, 45, 43, 44, 46, 37, 43, 38, 34, 33, 33, 36, 40, 33, 41, 38, 36, 37, 39, 44, 36, 45, 41, 40, 40, 43, 33, 40, 34, 45, 43, 44, 33, 37, 44, 38, 35, 33, 34, 37, 41, 34, 42, 39, 38, 38, 41, 45, 38, 33, 43, 42, 43, 45, 36, 43, 37, 34, 33, 33, 36, 41, 33, 42, 39, 37, 38, 41, 45, 38, 33, 44, 42, 43, 46, 36, 43, 38, 35, 33, 34, 37, 42, 34, 43, 40, 39, 40, 42, 33, 40, 35, 45, 44, 45, 34, 39, 46, 40, 37, 36, 37, 40, 45, 37, 46, 43, 42, 43, 46, 37, 43, 38, 35, 34, 35, 38, 43, 36, 45, 41, 40, 41, 44, 35, 42, 37, 34, 33, 34, 37, 42, 35, 44, 41, 47, 41, 44, 35, 42]

/-- The accurate change description of the edit taking `c4old` to
`c4new`: two one-unit replacements, document length 2010. -/
def c4desc : ChangeDesc := ⟨[(0, 1, 0, 1), (2005, 2006, 2005, 2006)], 2010⟩

set_option maxRecDepth 8000000
set_option maxHeartbeats 40000000

/-! ### Helper lemmas -/

/-- `strEqAux` is reflexive at every fuel. -/
theorem strEqAux_refl : ∀ (f : Nat) (xs : JSStr), strEqAux f xs xs = true := by
  intro f
  induction f with
  | zero => intro xs; rfl
  | succ f ih =>
    intro xs
    rcases xs with _ | ⟨a0, _ | ⟨a1, _ | ⟨a2, _ | ⟨a3, _ | ⟨a4, _ | ⟨a5, _ | ⟨a6, _ |
      ⟨a7, xt⟩⟩⟩⟩⟩⟩⟩⟩ <;> simp [strEqAux, ih]

/-- JS string equality is reflexive. -/
theorem strEq_refl (s : JSStr) : strEq s s = true := strEqAux_refl scanFuel s

/-- `mergeAdjacentGo` keeps the starting positions of the head change. -/
theorem mergeAdjacentGo_head (g : Int) :
    ∀ (f : Nat) (c : Change) (rest : List Change),
    ∃ t1 t2 t, mergeAdjacentGo g f (c :: rest) = Change.mk c.fromA t1 c.fromB t2 :: t := by
  intro f
  induction f with
  | zero => intro c rest; exact ⟨c.toA, c.toB, rest, by cases c; rfl⟩
  | succ f ih =>
    intro c rest
    cases rest with
    | nil => exact ⟨c.toA, c.toB, [], by cases c; rfl⟩
    | cons c2 rest2 =>
      by_cases h : (decide (c.toA > c2.fromA - g) && decide (c.toB > c2.fromB - g)) = true
      · obtain ⟨t1, t2, t, ht⟩ := ih ⟨c.fromA, c2.toA, c.fromB, c2.toB⟩ rest2
        exact ⟨t1, t2, t, by simpa [mergeAdjacentGo, h] using ht⟩
      · exact ⟨c.toA, c.toB, mergeAdjacentGo g f (c2 :: rest2),
          by cases c; simp [mergeAdjacentGo, h]⟩

/-- The output of `mergeAdjacentGo` never has two adjacent changes its
merge test would have joined, whenever the fuel covers the list (as the
`mergeAdjacent` entry point arranges). -/
theorem mergeAdjacentGo_chain (g : Int) : ∀ (f : Nat) (l : List Change),
    l.length ≤ f + 1 → List.Chain' (unmerged g) (mergeAdjacentGo g f l) := by
  intro f
  induction f with
  | zero =>
    intro l hl
    cases l with
    | nil => simp [mergeAdjacentGo]
    | cons c t =>
      cases t with
      | nil => simp [mergeAdjacentGo]
      | cons c2 t2 => simp at hl
  | succ f ih =>
    intro l hl
    cases l with
    | nil => simp [mergeAdjacentGo]
    | cons c1 t =>
      cases t with
      | nil => simp [mergeAdjacentGo]
      | cons c2 rest =>
        by_cases h : (decide (c1.toA > c2.fromA - g) && decide (c1.toB > c2.fromB - g)) = true
        · have hlen : (Change.mk c1.fromA c2.toA c1.fromB c2.toB :: rest).length ≤ f + 1 := by
            simp at hl ⊢; omega
          simpa [mergeAdjacentGo, h] using ih _ hlen
        · have htail : List.Chain' (unmerged g) (mergeAdjacentGo g f (c2 :: rest)) :=
            ih _ (by simp at hl ⊢; omega)
          have heq : mergeAdjacentGo g (f + 1) (c1 :: c2 :: rest) =
              c1 :: mergeAdjacentGo g f (c2 :: rest) := by
            simp [mergeAdjacentGo, h]
          rw [heq]
          refine List.chain'_cons'.mpr ⟨?_, htail⟩
          intro y hy
          obtain ⟨t1, t2, t, ht⟩ := mergeAdjacentGo_head g f c2 rest
          rw [ht] at hy
          simp at hy
          subst hy
          simp only [Bool.and_eq_true, decide_eq_true_eq] at h
          intro hc
          exact h ⟨hc.1, hc.2⟩

/-! ### The claims -/

/-- C1: refuted.  On `c1a`/`c1b` the default-configuration `diff` returns
a second span whose B-range is reversed (`fromB = 4 > 3 = toB`), and the
reassembly the claim describes does not rebuild `b`. -/
theorem c1_diff_invalid_span :
    diff {} orcF c1a c1b = some [⟨0, 0, 0, 3⟩, ⟨1, 2, 4, 3⟩] ∧
    (Change.mk 1 2 4 3).fromB > (Change.mk 1 2 4 3).toB ∧
    applySpans c1a c1b [⟨0, 0, 0, 3⟩, ⟨1, 2, 4, 3⟩] ≠ c1b :=
  ⟨rfl, by decide, by decide⟩

/-- C2: diffing any document against itself yields the empty change list,
for every configuration and timing oracle. -/
theorem c2_diff_self (cfg : DiffConfig) (e : Nat → Bool) (a : JSStr) :
    diff cfg e a a = some [] := by
  simp [diff, diffRun, findDiffF, findDiffGen, strEq_refl, normalizeF,
    mergeAdjacent, mergeAdjacentGo, normalizePass]

/-- C5: on `"line1\nline2\nline3"` vs `"line1\nlineX\nline3"`,
`Chunk.build` yields exactly one chunk covering the second line on both
sides (6..12), whatever the word oracle and timing oracle answer. -/
theorem c5_build_single_chunk (w : WordOracle) (e : Nat → Bool) :
    Chunk.build (DiffCtx.ofConfig {} e) w c5a c5b =
      some [Chunk.mk [Change.mk 0 5 0 5] 6 12 6 12 true] := rfl

/-- C7 (amended): the final merge pass of `presentableDiff` joins two
consecutive changes exactly when both gaps are below 3 (that is, at most
2 units), so the returned list never has two consecutive changes with
both gaps at most 2 — gaps of exactly 3 survive. -/
theorem c7_presentable_unmerged_gaps :
    (∀ (w : WordOracle) (cs : List Change) (a b : JSStr),
      List.Chain' (unmerged 3) (makePresentable w cs a b)) ∧
    (∀ (ctx : DiffCtx) (w : WordOracle) (a b : JSStr) (p : List Change × DiffState),
      presentableDiffRun ctx w a b = some p → List.Chain' (unmerged 3) p.1) := by
  have base : ∀ (w : WordOracle) (cs : List Change) (a b : JSStr),
      List.Chain' (unmerged 3) (makePresentable w cs a b) := fun w cs a b =>
    mergeAdjacentGo_chain 3 _ _ (Nat.le_succ _)
  refine ⟨base, ?_⟩
  intro ctx w a b p hp
  unfold presentableDiffRun at hp
  obtain ⟨q, hq, rfl⟩ := Option.map_eq_some'.mp hp
  exact base w q.1 a b

/-- C7 witness: the amended theorem applied to the one-change diff of
`"a"` against `"b"`. -/
theorem c7_presentable_unmerged_gaps_witness :
    List.Chain' (unmerged 3) ([Change.mk 0 1 0 1] : List Change) :=
  c7_presentable_unmerged_gaps.2 (ctxOf orcF) wF [97] [98]
    ([Change.mk 0 1 0 1], ⟨0, false⟩) rfl

/-- C7 counterexample: on `"A   B"` vs `"C   D"` the two changes sit at a
gap of exactly 3 units on both sides and `presentableDiff` does not merge
them, refuting "separated by a gap of at most 3 units are merged". -/
theorem c7_gap_three_unmerged :
    (presentableDiffRun (ctxOf orcF) wF c7a c7b).map Prod.fst =
      some [⟨0, 1, 0, 1⟩, ⟨4, 5, 4, 5⟩] := rfl

/-- C8 counterexample: `diff` on `"hello world"`/`"hello there"` returns
two spans, not the single span the claim states (whose B-range 6..12
would not even fit the 11-unit result). -/
theorem c8_diff_two_spans :
    diff {} orcF c8a c8b = some [⟨6, 8, 6, 9⟩, ⟨9, 11, 10, 11⟩] := rfl

/-- C8 (amended): it is `presentableDiff` that returns exactly one span
for `"hello world"`/`"hello there"`, replacing `"world"` by `"there"`
with offsets 6..11 on both sides (`toB = 11`, not 12). -/
theorem c8_presentable_single_span (w : WordOracle) :
    (presentableDiffRun (ctxOf orcF) w c8a c8b).map Prod.fst =
      some [⟨6, 11, 6, 11⟩] := rfl

/-- C9: refuted.  Diffing a full surrogate pair against its high half
returns the span `(1, 2, 1, 1)`, whose A-endpoint 1 falls between the
two halves of the pair (`validIndex` rejects it). -/
theorem c9_span_splits_surrogate :
    diff {} orcF c9a c9b = some [⟨1, 2, 1, 1⟩] ∧ validIndex c9a 1 = false :=
  ⟨rfl, rfl⟩

/-- C10: an edit description with no changed ranges makes `Chunk.updateA`
and `Chunk.updateB` return the prior chunk list itself, for every context,
word oracle, chunk list and document pair. -/
theorem c10_empty_changedesc (ctx : DiffCtx) (w : WordOracle)
    (chunks : List Chunk) (a b : JSStr) (L : Int) :
    Chunk.updateA ctx w chunks a b ⟨[], L⟩ = some chunks ∧
    Chunk.updateB ctx w chunks a b ⟨[], L⟩ = some chunks := ⟨rfl, rfl⟩

/-- C3: refuted — the source recursion need not terminate.  On
`c3a`/`c3b` the subrange (1..3, 1..4) reproduces itself as the first
recursive subproblem of `findDiff` (the surrogate-adjusted bisection
splits at the range's own ends), so no recursion fuel suffices: the
fuelled embedding answers `none` at every fuel, and hence `diff` under
the default configuration returns `none` for every timing oracle —
in the JavaScript source, unbounded recursion instead of a diff. -/
theorem c3_diff_nonterminating :
    (∀ (e : Nat → Bool) (fuel : Nat) (st : DiffState),
      findDiffF (ctxOf e) fuel c3a 1 3 c3b 1 4 st = none) ∧
    (∀ e : Nat → Bool, diff {} e c3a c3b = none) := by
  have loop : ∀ (e : Nat → Bool) (fuel : Nat) (st : DiffState),
      findDiffF (ctxOf e) fuel c3a 1 3 c3b 1 4 st = none := by
    intro e fuel
    induction fuel with
    | zero => intro st; rfl
    | succ f ih =>
      intro st
      have h : findDiffF (ctxOf e) (f + 1) c3a 1 3 c3b 1 4 st =
          (findDiffF (ctxOf e) f c3a 1 3 c3b 1 4 st).bind
            (fun p1 => (findDiffF (ctxOf e) f c3a 3 3 c3b 4 4 p1.2).map
              fun p2 => (p1.1 ++ p2.1, p2.2)) := rfl
      rw [h, ih st]
      rfl
  refine ⟨loop, ?_⟩
  intro e
  show (diffRun (DiffCtx.ofConfig {} e) c3a c3b).map Prod.fst = none
  have h : diffRun (DiffCtx.ofConfig {} e) c3a c3b =
      ((findDiffF (ctxOf e) 7 c3a 1 3 c3b 1 4 ⟨0, false⟩).bind
        (fun p1 => (findDiffF (ctxOf e) 7 c3a 3 3 c3b 4 4 p1.2).map
          fun p2 => (p1.1 ++ p2.1, p2.2))).map
        (fun p => (normalizeF c3a c3b 8 p.1, p.2)) := rfl
  rw [h, loop e 7 ⟨0, false⟩]
  rfl

/-- C6: when the scan budget is constrained (the internal `scanLimit`,
the halved configured value, is below the 1e9 sentinel) and the remaining
region's shorter side exceeds 16 times it (the budget guard fires) and
also exceeds 64 times it, `findSnake` gives the region up as a single
whole-range span — the crude fallback is skipped and the state is
untouched. -/
theorem c6_budget_whole_span (ctx : DiffCtx) (rec : RecFn) (a : JSStr)
    (fromA toA : Int) (b : JSStr) (fromB toB : Int) (st : DiffState)
    (h1 : ctx.scanLimit < 1000000000)
    (h2 : min (toA - fromA) (toB - fromB) > ctx.scanLimit * 16)
    (h3 : min (toA - fromA) (toB - fromB) > ctx.scanLimit * 64) :
    findSnakeGen ctx rec a fromA toA b fromB toB st =
      some ([⟨fromA, toA, fromB, toB⟩], st) := by
  unfold findSnakeGen
  simp [h1, h2, h3]

/-- C6 witness: with `scanLimit` configured 0 the internal budget is 0,
any nonempty region exceeds both thresholds, and `findSnake` on
`"a"`/`"b"` returns the single whole-range span. -/
theorem c6_budget_whole_span_witness :
    (DiffCtx.ofConfig ⟨some 0, none⟩ orcF).scanLimit < 1000000000 ∧
    min ((1 : Int) - 0) ((1 : Int) - 0) >
      (DiffCtx.ofConfig ⟨some 0, none⟩ orcF).scanLimit * 16 ∧
    min ((1 : Int) - 0) ((1 : Int) - 0) >
      (DiffCtx.ofConfig ⟨some 0, none⟩ orcF).scanLimit * 64 ∧
    findSnakeGen (DiffCtx.ofConfig ⟨some 0, none⟩ orcF)
      (findDiffF (DiffCtx.ofConfig ⟨some 0, none⟩ orcF) 0) [97] 0 1 [98] 0 1 ⟨0, false⟩ =
      some ([⟨0, 1, 0, 1⟩], ⟨0, false⟩) :=
  ⟨by decide, by decide, by decide,
    c6_budget_whole_span _ _ _ _ _ _ _ _ _ (by decide) (by decide) (by decide)⟩

end CMerge
